import Mathlib

/-!
Shallow embedding of the CSV ingestion / aggregation / weather-regression
pipeline of `src/lib/csvDataParser.ts` (DataIO-2026).

Modelling conventions:
* JavaScript numbers are modelled as exact rationals (`ℚ`); the source never
  relies on float rounding, and all thresholds (`10_000`, `0.2`, `1e-10`, ...)
  are taken at their exact decimal values.
* `Math.sqrt` is modelled by `ratSqrt`, which is exact whenever the reduced
  numerator and denominator of its argument are perfect squares (in particular
  on `0` and on squares of rationals); no theorem below depends on its value
  elsewhere.
* JavaScript `Map`s are modelled as insertion-ordered association lists
  (`alGet` / `alSet`), matching `Map.get` / `Map.set` semantics.
* `Date` values are modelled by their calendar components (`DT`), i.e. the
  host clock is taken to be UTC, so `getFullYear`/`getMonth`/... and the
  date part of `toISOString` read off the same components.  `new Date(s)`
  parsing is host behaviour and is modelled by rows carrying the parse
  result directly (`Option DT`, `none` = invalid timestamp).
* Locale-formatted label strings (`toLocaleDateString`) are presentation
  output; the records below keep the underlying keys/numbers instead.
-/

set_option maxRecDepth 10000

attribute [local semireducible] Rat.add Rat.mul Rat.inv Rat.sub Rat.ofScientific

namespace DataIO

/-- ASCII lower-casing of one character (JS `toLowerCase` on this data). -/
def lowerChar (c : Char) : Char :=
  if 65 ≤ c.toNat ∧ c.toNat ≤ 90 then Char.ofNat (c.toNat + 32) else c

/-- ASCII upper-casing of one character (JS `toUpperCase` on this data). -/
def upperChar (c : Char) : Char :=
  if 97 ≤ c.toNat ∧ c.toNat ≤ 122 then Char.ofNat (c.toNat - 32) else c

/-- JS `s.toLowerCase()` (ASCII; the source's column names and tokens are ASCII). -/
def strLower (s : String) : String := ⟨s.data.map lowerChar⟩

/-- JS `s.toUpperCase()` (ASCII). -/
def strUpper (s : String) : String := ⟨s.data.map upperChar⟩

/-- The whitespace characters JS `trim` removes, restricted to those occurring
in CSV headers/cells (space, tab, CR, LF). -/
def isWsChar (c : Char) : Bool :=
  c = ' ' || c = '\t' || c = '\r' || c = '\n'

/-- JS `s.trim()`. -/
def strTrim (s : String) : String :=
  ⟨((s.data.dropWhile isWsChar).reverse.dropWhile isWsChar).reverse⟩

/-- Lexicographic code-unit order on character lists (models `localeCompare`
ascending order on the ASCII keys this pipeline sorts). -/
def listLtChars : List Char → List Char → Bool
  | [], [] => false
  | [], _ :: _ => true
  | _ :: _, [] => false
  | a :: as, b :: bs => a.toNat < b.toNat || (a = b && listLtChars as bs)

/-- Fuel-driven Newton iteration for the integer square root. -/
def natSqrtGo : ℕ → ℕ → ℕ → ℕ
  | 0, _, x => x
  | fuel + 1, n, x =>
    let next := (x + n / x) / 2
    if next < x then natSqrtGo fuel n next else x

/-- Integer square root (`⌊√n⌋`), written with structural recursion so the
kernel can evaluate it. -/
def natSqrt (n : ℕ) : ℕ := if n ≤ 1 then n else natSqrtGo n n (n / 2 + 1)

/-- JavaScript `Math.round`: round half toward positive infinity. -/
def jsRound (q : ℚ) : ℤ := ⌊q + 1/2⌋

/-- The `Math.round(x * 10) / 10` pattern of the source. -/
def round1 (q : ℚ) : ℚ := (jsRound (q * 10) : ℚ) / 10

/-- The `Math.round(x * 100) / 100` pattern of the source. -/
def round2 (q : ℚ) : ℚ := (jsRound (q * 100) : ℚ) / 100

/-- Source `clamp`: `Math.min(Math.max(value, min), max)`. -/
def clamp (v lo hi : ℚ) : ℚ := min (max v lo) hi

/-- Model of `Math.sqrt` on rationals; exact on perfect squares (see header). -/
def ratSqrt (q : ℚ) : ℚ := (natSqrt q.num.toNat : ℚ) / (natSqrt q.den : ℚ)

/-- JavaScript `Math.abs`, written executably. -/
def jsAbs (q : ℚ) : ℚ := if q < 0 then -q else q

/-- JavaScript `x || 1` on numbers (only `0` is falsy on our inputs). -/
def qOrOne (q : ℚ) : ℚ := if q = 0 then 1 else q

/-- Insert into a list sorted by the boolean comparator `le` (stable). -/
def insLe (le : α → α → Bool) (x : α) : List α → List α
  | [] => [x]
  | y :: ys => if le x y then x :: y :: ys else y :: insLe le x ys

/-- Stable insertion sort by a boolean comparator; models `Array.sort`. -/
def sortLe (le : α → α → Bool) : List α → List α
  | [] => []
  | x :: xs => insLe le x (sortLe le xs)

/-- Rational ascending comparator (`(a, b) => a - b`). -/
def ratLe (a b : ℚ) : Bool := decide (a ≤ b)

/-- Source `median`: sort ascending, average the two middle values on even length. -/
def median (values : List ℚ) : ℚ :=
  if values.length = 0 then 0
  else
    let sorted := sortLe ratLe values
    let mid := sorted.length / 2
    if sorted.length % 2 = 0 then (sorted.getD (mid - 1) 0 + sorted.getD mid 0) / 2
    else sorted.getD mid 0

/-- Source `quantile`: linear interpolation between order statistics. -/
def quantile (values : List ℚ) (q : ℚ) : ℚ :=
  if values.length = 0 then 0
  else
    let sorted := sortLe ratLe values
    let idx : ℚ := ((sorted.length - 1 : ℕ) : ℚ) * clamp q 0 1
    let lo := (⌊idx⌋).toNat
    let hi := (⌈idx⌉).toNat
    if lo = hi then sorted.getD lo 0
    else
      let t := idx - (lo : ℚ)
      sorted.getD lo 0 * (1 - t) + sorted.getD hi 0 * t

/-- List minimum, modelling `Math.min(...xs)` on a non-empty list. -/
def jsListMin (l : List ℚ) : ℚ :=
  match l with
  | [] => 0
  | h :: t => t.foldl min h

/-- List maximum, modelling `Math.max(...xs)` on a non-empty list. -/
def jsListMax (l : List ℚ) : ℚ :=
  match l with
  | [] => 0
  | h :: t => t.foldl max h

/-- Integer list maximum, for `Math.max(...)` over already-rounded values. -/
def jsListMaxZ (l : List ℤ) : ℤ :=
  match l with
  | [] => 0
  | h :: t => t.foldl max h

/-- JavaScript `a || b` on strings (empty string is falsy). -/
def strOr (a b : String) : String := if a = "" then b else a

/-- Does `needle` occur at the head of `hay`? (character lists) -/
def listStarts : List Char → List Char → Bool
  | [], _ => true
  | _ :: _, [] => false
  | a :: as, b :: bs => a = b && listStarts as bs

/-- Does `needle` occur anywhere in `hay`? (character lists) -/
def listIncl (needle : List Char) : List Char → Bool
  | [] => needle.isEmpty
  | c :: rest => listStarts needle (c :: rest) || listIncl needle rest

/-- JavaScript `hay.includes(sub)` on strings. -/
def strIncludes (hay sub : String) : Bool := listIncl sub.data hay.data

/-- Association-list lookup: JavaScript `Map.get`. -/
def alGet [DecidableEq κ] (l : List (κ × β)) (k : κ) : Option β :=
  (l.find? (fun p => decide (p.1 = k))).map (fun p => p.2)

/-- Association-list update: JavaScript `Map.set` (replace in place or append). -/
def alSet [DecidableEq κ] : List (κ × β) → κ → β → List (κ × β)
  | [], k, v => [(k, v)]
  | (k0, v0) :: t, k, v =>
    if k0 = k then (k, v) :: t else (k0, v0) :: alSet t k v

/-- String comparator modelling `localeCompare` ascending order (ASCII data). -/
def strLeB (a b : String) : Bool := !(listLtChars b.data a.data)

/-- Sort an association list by string key (`.sort(([a],[b]) => a.localeCompare(b))`). -/
def sortByKey (l : List (String × α)) : List (String × α) :=
  sortLe (fun a b => strLeB a.1 b.1) l

/-- JavaScript `xs.slice(-n)`: the last `n` elements. -/
def takeLast (n : ℕ) (l : List α) : List α := l.drop (l.length - n)

/-- Integer loop `for (t = lo; t <= hi; t += step)` for a positive step. -/
def intRangeStep (lo hi step : ℤ) : List ℤ :=
  if 0 < step ∧ lo ≤ hi then
    (List.range (((hi - lo) / step).toNat + 1)).map (fun k => lo + step * (k : ℤ))
  else []

-- ── Building-name heuristics (source lines 465-483, 611-625) ───────────────

/-- Source `isUtilityLikeBuildingName`: case-insensitive substring alternation. -/
def isUtilityLikeBuildingName (name : String) : Bool :=
  ["substation", "plant", "utility", "central", "chiller", "boiler", "power",
   "service", "garage", "parking", "tunnel", "steam"].any
    (fun t => strIncludes (strLower name) t)

/-- Source `WEATHER_MODEL_BUILDING_TOKENS`. -/
def weatherModelBuildingTokens : List String :=
  ["thompson library", "recreation and physical activity center", "rpac",
   "knowlton hall", "hitchcock hall", "ohio union"]

/-- Source `isPreferredWeatherModelBuilding`. -/
def isPreferredWeatherModelBuilding (name : String) : Bool :=
  weatherModelBuildingTokens.any (fun t => strIncludes (strLower name) t)

/-- Source `classifyBuildingType`: first matching pattern wins, else Academic. -/
def classifyBuildingType (n : String) : String :=
  let lower := strLower n
  if isUtilityLikeBuildingName n then "Utility"
  else if ["lab", "research", "science", "chemistry", "physics", "biology",
           "engineering", "medical", "hospital", "veterinar"].any
            (fun t => strIncludes lower t) then "Labs"
  else if ["residence", "dorm", "living", "apartment"].any
            (fun t => strIncludes lower t) then "Residential"
  else if ["stadium", "arena", "recreation", "gym", "athletic", "field",
           "wellness", "aquatic", "ice", "golf"].any
            (fun t => strIncludes lower t) then "Athletics"
  else "Academic"

/-- Source `isElectricityUtility`. -/
def isElectricityUtility (utility : String) : Bool :=
  let upper := strUpper utility
  upper = "ELECTRICITY" || upper = "ELECTRIC" || strIncludes upper "ELEC"

-- ── Weather-regression input/output records ─────────────────────────────────

/-- Source `BuildingWeatherEntry` (the weather model's input rows). -/
structure BuildingWeatherEntry where
  buildingName : String
  temperature : ℚ
  precipitation : ℚ
  windSpeed : ℚ
  electricity : ℚ
  date : String
deriving DecidableEq

/-- One aggregated (per-date) row of the model panel, after daily averaging. -/
structure WRow where
  temp : ℚ
  precip : ℚ
  wind : ℚ
  kwh : ℚ
  count : ℕ
deriving DecidableEq

/-- Raw per-date accumulator for the model's daily aggregation. -/
structure WAgg where
  kwh : ℚ
  temp : ℚ
  precip : ℚ
  wind : ℚ
  count : ℕ
deriving DecidableEq

structure WeatherCoefficients where
  temperature : ℚ
  precipitation : ℚ
  windSpeed : ℚ
  intercept : ℚ
deriving DecidableEq

structure FeatureImportance where
  feature : String
  importance : ℚ
  absCoeff : ℚ
deriving DecidableEq

structure PredictionPoint where
  actual : ℚ
  predicted : ℤ
  temperature : ℚ
  precipitation : ℚ
  windSpeed : ℚ
deriving DecidableEq

structure MarginalPoint where
  temperature : ℤ
  predicted : ℤ
deriving DecidableEq

structure ScenarioPoint where
  label : String
  temperature : ℚ
  predicted : ℤ
deriving DecidableEq

structure HeatmapPoint where
  temperature : ℤ
  windSpeed : ℤ
  predicted : ℤ
deriving DecidableEq

/-- Source `WeatherModelResult`. -/
structure WeatherModelResult where
  coefficients : WeatherCoefficients
  featureImportance : List FeatureImportance
  predictions : List PredictionPoint
  r2 : ℚ
  marginalEffect : List MarginalPoint
  scenarioComparison : List ScenarioPoint
  heatmapData : List HeatmapPoint
deriving DecidableEq

-- ── Weather-model pipeline stages (source lines 965-1036) ───────────────────

/-- Usability filter: finite (always, on ℚ) and positive electricity, and not a
utility-like building (source lines 966-974). -/
def weatherBaseUsable (entries : List BuildingWeatherEntry) : List BuildingWeatherEntry :=
  entries.filter (fun e =>
    decide (0 < e.electricity) && !(isUtilityLikeBuildingName e.buildingName))

/-- Preference filter: restrict to curated benchmark buildings when they supply
at least 50 observations (source lines 976-980). -/
def weatherUsableEntries (entries : List BuildingWeatherEntry) : List BuildingWeatherEntry :=
  let base := weatherBaseUsable entries
  let preferred := base.filter (fun e => isPreferredWeatherModelBuilding e.buildingName)
  if 50 ≤ preferred.length then preferred else base

/-- Daily aggregation across buildings with a per-date coverage count
(source lines 985-1004): sums per date key, then averaged rows. -/
def weatherDailyRows (entries : List BuildingWeatherEntry) : List WRow :=
  let dailyAgg : List (String × WAgg) :=
    (weatherUsableEntries entries).foldl
      (fun m e =>
        let existing := (alGet m e.date).getD ⟨0, 0, 0, 0, 0⟩
        alSet m e.date
          ⟨existing.kwh + e.electricity, existing.temp + e.temperature,
           existing.precip + e.precipitation, existing.wind + e.windSpeed,
           existing.count + 1⟩)
      []
  ((dailyAgg.map (fun p => p.2)).filter (fun d => decide (0 < d.count))).map
    (fun d => ⟨d.temp / (d.count : ℚ), d.precip / (d.count : ℚ),
               d.wind / (d.count : ℚ), d.kwh, d.count⟩)

/-- Coverage filter candidate list (source lines 1009-1012). -/
def coverageFiltered (rows : List WRow) : List WRow :=
  let medianCoverage := median (rows.map (fun r => (r.count : ℚ)))
  let minCoverage : ℤ := max 1 ⌊medianCoverage * (6/10)⌋
  rows.filter (fun r => decide (minCoverage ≤ (r.count : ℤ)))

/-- Coverage stage: applied only when at least 10 rows remain (lines 1013-1016). -/
def coverageStage (rows : List WRow) : List WRow :=
  if 10 ≤ (coverageFiltered rows).length then coverageFiltered rows else rows

/-- Completeness filter candidate list (source lines 1019-1022). -/
def completenessFiltered (rows : List WRow) : List WRow :=
  let positiveDailyKwh := (rows.map (fun r => r.kwh)).filter (fun v => decide (0 < v))
  let lowTail := quantile positiveDailyKwh (5/100)
  let minDailyKwh := max 10000 (lowTail * (1/2))
  rows.filter (fun r => decide (minDailyKwh ≤ r.kwh))

/-- Completeness stage: applied only when at least 10 rows remain (lines 1023-1026). -/
def completenessStage (rows : List WRow) : List WRow :=
  if 10 ≤ (completenessFiltered rows).length then completenessFiltered rows else rows

/-- Outlier-trim candidate list (source lines 1029-1032); `Number.isFinite` is
always true on ℚ. -/
def outlierFiltered (rows : List WRow) : List WRow :=
  let kwhValues := rows.map (fun r => r.kwh)
  let lowKwh := quantile kwhValues (1/100)
  let highKwh := quantile kwhValues (99/100)
  rows.filter (fun r => decide (lowKwh ≤ r.kwh) && decide (r.kwh ≤ highKwh))

/-- Outlier-trim stage: applied only when at least 10 rows remain (lines 1033-1036). -/
def outlierStage (rows : List WRow) : List WRow :=
  if 10 ≤ (outlierFiltered rows).length then outlierFiltered rows else rows

/-- The panel actually fitted: the three skip-if-thin filters in source order. -/
def weatherFitRows (entries : List BuildingWeatherEntry) : List WRow :=
  outlierStage (completenessStage (coverageStage (weatherDailyRows entries)))

-- ── Standardization and the ridge normal equations (lines 1038-1066) ────────

def wMeanTemp (rows : List WRow) : ℚ := ((rows.map (fun r => r.temp)).sum) / (rows.length : ℚ)

def wMeanPrecip (rows : List WRow) : ℚ := ((rows.map (fun r => r.precip)).sum) / (rows.length : ℚ)

def wMeanWind (rows : List WRow) : ℚ := ((rows.map (fun r => r.wind)).sum) / (rows.length : ℚ)

def wMeanKwh (rows : List WRow) : ℚ := ((rows.map (fun r => r.kwh)).sum) / (rows.length : ℚ)

/-- Population standard deviation with the `|| 1` fallback of the source. -/
def wStdTemp (rows : List WRow) : ℚ :=
  qOrOne (ratSqrt (((rows.map (fun r => (r.temp - wMeanTemp rows) ^ 2)).sum) / (rows.length : ℚ)))

def wStdPrecip (rows : List WRow) : ℚ :=
  qOrOne (ratSqrt (((rows.map (fun r => (r.precip - wMeanPrecip rows) ^ 2)).sum) / (rows.length : ℚ)))

def wStdWind (rows : List WRow) : ℚ :=
  qOrOne (ratSqrt (((rows.map (fun r => (r.wind - wMeanWind rows) ^ 2)).sum) / (rows.length : ℚ)))

/-- Standardized design matrix `[1, zTemp, zPrecip, zWind]` (lines 1050-1055). -/
def buildX (rows : List WRow) : List (List ℚ) :=
  rows.map (fun r =>
    [1, (r.temp - wMeanTemp rows) / wStdTemp rows,
     (r.precip - wMeanPrecip rows) / wStdPrecip rows,
     (r.wind - wMeanWind rows) / wStdWind rows])

def buildY (rows : List WRow) : List ℚ := rows.map (fun r => r.kwh)

/-- Source `transpose` (lines 1162-1172). -/
def transpose (m : List (List ℚ)) : List (List ℚ) :=
  let rows := m.length
  let cols := (m.headD []).length
  (List.range cols).map (fun j => (List.range rows).map (fun i => (m.getD i []).getD j 0))

/-- Source `matMul` (lines 1174-1187). -/
def matMul (a b : List (List ℚ)) : List (List ℚ) :=
  let rows := a.length
  let cols := (b.headD []).length
  let inner := b.length
  (List.range rows).map (fun i =>
    (List.range cols).map (fun j =>
      ((List.range inner).map (fun k => (a.getD i []).getD k 0 * (b.getD k []).getD j 0)).sum))

/-- Source `matVecMul` (lines 1189-1191). -/
def matVecMul (m : List (List ℚ)) (v : List ℚ) : List ℚ :=
  m.map (fun row => ((List.range row.length).map (fun j => row.getD j 0 * v.getD j 0)).sum)

/-- Ridge stabilization: add `α = 1` to the non-intercept diagonal (lines 1059-1062). -/
def addRidge (m : List (List ℚ)) : List (List ℚ) :=
  (List.range m.length).map (fun i =>
    let row := m.getD i []
    (List.range row.length).map (fun j =>
      if 1 ≤ i ∧ j = i then row.getD j 0 + 1 else row.getD j 0))

def entryAt (m : List (List ℚ)) (i j : ℕ) : ℚ := (m.getD i []).getD j 0

/-- Partial-pivot search over rows `col+1 .. n-1`, strict `>` keeps the first max. -/
def pivotSearch (aug : List (List ℚ)) (col : ℕ) : List ℕ → ℕ → ℕ
  | [], best => best
  | r :: rest, best =>
    pivotSearch aug col rest (if jsAbs (entryAt aug r col) > jsAbs (entryAt aug best col) then r else best)

def swapRows (m : List (List ℚ)) (i j : ℕ) : List (List ℚ) :=
  let ri := m.getD i []
  let rj := m.getD j []
  (m.set i rj).set j ri

/-- One column of Gauss-Jordan elimination with partial pivoting; returns `none`
exactly when the selected pivot has magnitude below `1e-10` (lines 1201-1218). -/
def gaussStep (n : ℕ) (aug : List (List ℚ)) (col : ℕ) : Option (List (List ℚ)) :=
  let maxRow := pivotSearch aug col (List.range' (col + 1) (n - (col + 1))) col
  let aug := swapRows aug col maxRow
  let p := entryAt aug col col
  if jsAbs p < 1 / 10 ^ 10 then none
  else
    let scaled := (aug.getD col []).map (fun x => x / p)
    let aug := aug.set col scaled
    some ((List.range n).map (fun r =>
      if r = col then scaled
      else
        let factor := entryAt aug r col
        (List.range (2 * n)).map (fun j => entryAt aug r j - factor * scaled.getD j 0)))

def gaussLoop (n : ℕ) : List ℕ → List (List ℚ) → Option (List (List ℚ))
  | [], aug => some aug
  | c :: rest, aug =>
    match gaussStep n aug c with
    | none => none
    | some aug2 => gaussLoop n rest aug2

/-- Source `invert4x4` (lines 1193-1221): Gauss-Jordan on the augmented matrix;
`none` models the `return null` on a near-singular pivot. -/
def invert4x4 (m : List (List ℚ)) : Option (List (List ℚ)) :=
  let n := m.length
  let aug := (List.range n).map (fun i =>
    (m.getD i []) ++ (List.range n).map (fun j => if i = j then (1 : ℚ) else 0))
  match gaussLoop n (List.range n) aug with
  | none => none
  | some aug2 => some (aug2.map (fun row => row.drop n))

/-- The ridge-stabilized normal-equations matrix `XᵗX + αI'` the model inverts. -/
def weatherNormalMatrix (entries : List BuildingWeatherEntry) : List (List ℚ) :=
  let rows := weatherFitRows entries
  addRidge (matMul (transpose (buildX rows)) (buildX rows))

-- ── Fitted model pieces (source lines 1066-1157) ────────────────────────────

def wXty (rows : List WRow) : List ℚ := matVecMul (transpose (buildX rows)) (buildY rows)

/-- `betaStd = XtXInv Xᵗy` (the source's `XtXInv.map(row => row.reduce(...))`). -/
def wBetaStd (rows : List WRow) (inv : List (List ℚ)) : List ℚ := matVecMul inv (wXty rows)

def wBTemp (rows : List WRow) (inv : List (List ℚ)) : ℚ :=
  (wBetaStd rows inv).getD 1 0 / wStdTemp rows

def wBPrecip (rows : List WRow) (inv : List (List ℚ)) : ℚ :=
  (wBetaStd rows inv).getD 2 0 / wStdPrecip rows

def wBWind (rows : List WRow) (inv : List (List ℚ)) : ℚ :=
  (wBetaStd rows inv).getD 3 0 / wStdWind rows

def wIntercept (rows : List WRow) (inv : List (List ℚ)) : ℚ :=
  (wBetaStd rows inv).getD 0 0 - wBTemp rows inv * wMeanTemp rows
    - wBPrecip rows inv * wMeanPrecip rows - wBWind rows inv * wMeanWind rows

/-- Prediction cap (line 1076): `max(1, q99 * 1.25, max-observed * 1.1)`. -/
def wPredictionCap (rows : List WRow) : ℚ :=
  max (max 1 (quantile (rows.map (fun r => r.kwh)) (99/100) * (5/4)))
    (jsListMax (rows.map (fun r => r.kwh)) * (11/10))

/-- `predictKwh` (lines 1077-1078): linear form clamped to `[0, cap]`. -/
def wPredict (rows : List WRow) (inv : List (List ℚ)) (t p w : ℚ) : ℚ :=
  clamp (wIntercept rows inv + wBTemp rows inv * t + wBPrecip rows inv * p
    + wBWind rows inv * w) 0 (wPredictionCap rows)

def wPredictions (rows : List WRow) (inv : List (List ℚ)) : List PredictionPoint :=
  rows.map (fun r =>
    ⟨r.kwh, jsRound (wPredict rows inv r.temp r.precip r.wind), r.temp, r.precip, r.wind⟩)

def weatherSsRes (rows : List WRow) (inv : List (List ℚ)) : ℚ :=
  ((wPredictions rows inv).map (fun p => (p.actual - (p.predicted : ℚ)) ^ 2)).sum

def weatherSsTot (rows : List WRow) : ℚ :=
  ((rows.map (fun r => (r.kwh - wMeanKwh rows) ^ 2)).sum)

/-- R² (lines 1090-1092): rounded to 4 decimals, `0` when `ssTot ≤ 0`. -/
def weatherR2 (rows : List WRow) (inv : List (List ℚ)) : ℚ :=
  if 0 < weatherSsTot rows then
    (jsRound ((1 - weatherSsRes rows inv / weatherSsTot rows) * 10000) : ℚ) / 10000
  else 0

/-- Feature importance (lines 1095-1104), sorted descending (stable). -/
def wImportance (rows : List WRow) (inv : List (List ℚ)) : List FeatureImportance :=
  let base : List FeatureImportance :=
    [⟨"Temperature", 0, jsAbs (wBTemp rows inv * wStdTemp rows)⟩,
     ⟨"Precipitation", 0, jsAbs (wBPrecip rows inv * wStdPrecip rows)⟩,
     ⟨"Wind Speed", 0, jsAbs (wBWind rows inv * wStdWind rows)⟩]
  let totalAbsCoeff := qOrOne ((base.map (fun c => c.absCoeff)).sum)
  let scored := base.map (fun c =>
    { c with importance := (jsRound (c.absCoeff / totalAbsCoeff * 10000) : ℚ) / 100 })
  sortLe (fun a b => decide (b.importance ≤ a.importance)) scored

def wMinTemp (rows : List WRow) : ℤ := ⌊jsListMin (rows.map (fun r => r.temp))⌋

def wMaxTemp (rows : List WRow) : ℤ := ⌈jsListMax (rows.map (fun r => r.temp))⌉

def wMinWind (rows : List WRow) : ℤ := ⌊jsListMin (rows.map (fun r => r.wind))⌋

def wMaxWind (rows : List WRow) : ℤ := ⌈jsListMax (rows.map (fun r => r.wind))⌉

/-- Marginal-effect curve (lines 1107-1116): temperature stepped by 2. -/
def wMarginal (rows : List WRow) (inv : List (List ℚ)) : List MarginalPoint :=
  (intRangeStep (wMinTemp rows) (wMaxTemp rows) 2).map (fun t =>
    ⟨t, jsRound (wPredict rows inv (t : ℚ) (wMeanPrecip rows) (wMeanWind rows))⟩)

/-- Scenario comparison (lines 1119-1130). -/
def wScenario (rows : List WRow) (inv : List (List ℚ)) : List ScenarioPoint :=
  [⟨"Moderate (~70°F)", 70, jsRound (wPredict rows inv 70 (wMeanPrecip rows) (wMeanWind rows))⟩,
   ⟨"Extreme (~90°F)", 90, jsRound (wPredict rows inv 90 (wMeanPrecip rows) (wMeanWind rows))⟩]

/-- Temperature × wind prediction grid (lines 1132-1147). -/
def wHeatmap (rows : List WRow) (inv : List (List ℚ)) : List HeatmapPoint :=
  let tempStep := max 2 (jsRound (((wMaxTemp rows - wMinTemp rows : ℤ) : ℚ) / 10))
  let windStep := max 1 (jsRound (((wMaxWind rows - wMinWind rows : ℤ) : ℚ) / 8))
  ((intRangeStep (wMinTemp rows) (wMaxTemp rows) tempStep).map (fun t =>
    (intRangeStep (wMinWind rows) (wMaxWind rows) windStep).map (fun w =>
      (⟨t, w, jsRound (wPredict rows inv (t : ℚ) (wMeanPrecip rows) (w : ℚ))⟩ : HeatmapPoint)))).flatten

/-- The fitted record returned once inversion succeeded (lines 1149-1157). -/
def weatherModelFrom (rows : List WRow) (inv : List (List ℚ)) : WeatherModelResult :=
  { coefficients := ⟨wBTemp rows inv, wBPrecip rows inv, wBWind rows inv, wIntercept rows inv⟩
    featureImportance := wImportance rows inv
    predictions := wPredictions rows inv
    r2 := weatherR2 rows inv
    marginalEffect := wMarginal rows inv
    scenarioComparison := wScenario rows inv
    heatmapData := wHeatmap rows inv }

/-- Source `buildWeatherModel` (lines 965-1158): the two data-shortage aborts,
then the ridge fit; `none` models `return null`. -/
def buildWeatherModel (entries : List BuildingWeatherEntry) : Option WeatherModelResult :=
  if (weatherUsableEntries entries).length < 10 then none
  else if (weatherDailyRows entries).length < 10 then none
  else
    match invert4x4 (weatherNormalMatrix entries) with
    | none => none
    | some inv => some (weatherModelFrom (weatherFitRows entries) inv)

-- ── Dates (UTC model, see header) ──────────────────────────────────────────

/-- A parsed `Date`, by calendar components (year, 0-based month, day of month,
hour, minute). -/
structure DT where
  y : ℤ
  mo : Fin 12
  d : Fin 32
  h : Fin 24
  mi : Fin 60
deriving DecidableEq

/-- Left-pad to two digits: `String(n).padStart(2, "0")`. -/
def pad2 (n : ℕ) : String := if n < 10 then "0" ++ toString n else toString n

/-- The date part of `toISOString()`: `YYYY-MM-DD` (4-digit years in this data). -/
def isoDate (dt : DT) : String :=
  toString dt.y ++ "-" ++ pad2 (dt.mo.val + 1) ++ "-" ++ pad2 dt.d.val

/-- The month key `` `${getFullYear()}-${pad2 (getMonth()+1)}` ``. -/
def monthKeyOf (dt : DT) : String := toString dt.y ++ "-" ++ pad2 (dt.mo.val + 1)

/-- Truncation to the hour: `new Date(getFullYear(), getMonth(), getDate(), getHours())`. -/
def hourTrunc (dt : DT) : DT := { dt with mi := 0 }

/-- An integer code strictly monotone in `(y, mo, d, h)`; stands in for
`getTime()` of the hour-truncated date (order-isomorphic on valid components). -/
def hourCode (dt : DT) : ℤ :=
  ((dt.y * 12 + (dt.mo.val : ℤ)) * 32 + (dt.d.val : ℤ)) * 24 + (dt.h.val : ℤ)

/-- Monotone stand-in for the full `getTime()` (down to minutes). -/
def fullCode (dt : DT) : ℤ := hourCode dt * 60 + (dt.mi.val : ℤ)

/-- Split a character list at `-` (models `split("-")`). -/
def splitDashGo : List Char → List Char → List (List Char)
  | [], acc => [acc.reverse]
  | c :: rest, acc =>
    if c = '-' then acc.reverse :: splitDashGo rest [] else splitDashGo rest (c :: acc)

/-- Parse a digit string (models `Number()` on the canonical `YYYY`/`MM` parts). -/
def parseNatChars : List Char → ℕ → Option ℕ
  | [], acc => some acc
  | c :: rest, acc =>
    if 48 ≤ c.toNat ∧ c.toNat ≤ 57 then parseNatChars rest (acc * 10 + (c.toNat - 48))
    else none

/-- `k.split("-").map(Number)` on a month key `YYYY-MM`. -/
def parseMonthKey (s : String) : ℤ × ℤ :=
  match splitDashGo s.data [] with
  | [a, b] => (((parseNatChars a 0).getD 0 : ℤ), ((parseNatChars b 0).getD 0 : ℤ))
  | _ => (0, 0)

-- ── Raw rows and field coercions (source lines 416-438) ────────────────────

/-- A cell value as the streaming parser sees it.  Numeric CSV cells are
modelled as `num` carrying the value JS `Number()` would produce; cells that
do not parse numerically are `str` (for which `toNum` yields `0`, as
`Number()` gives `NaN` there); `null` models missing cells. -/
inductive JsValue where
  | str (s : String)
  | num (q : ℚ)
  | null
deriving DecidableEq

/-- Source `toStr`: `val == null ? "" : String(val).trim()`. -/
def jsToStr : JsValue → String
  | .str s => strTrim s
  | .num q => strTrim (toString q)
  | .null => ""

/-- Source `toNum`: numbers pass through, `null`/empty/non-numeric give 0. -/
def jsToNum : JsValue → ℚ
  | .num q => q
  | .str _ => 0
  | .null => 0

/-- One normalized row of a source file: the fields the parser reads (after
`normalizeRowKeys`).  `readingtime`/`date` carry the result of the host's
`new Date(...)` parse (`none` = invalid), per the header notes. -/
structure RawRow where
  utility : JsValue := .null
  readingtime : Option DT := none
  readingunits : JsValue := .null
  readingunitsdisplay : JsValue := .null
  readingwindowsum : JsValue := .null
  temperature_2m : JsValue := .null
  precipitation : JsValue := .null
  wind_speed_10m : JsValue := .null
  buildingname : JsValue := .null
  grossarea : JsValue := .null
  simscode : JsValue := .null
  date : Option DT := none
deriving DecidableEq

-- ── Streaming accumulators of `parsePrimaryCsv` (source lines 207-414) ─────

structure HourAgg where
  kwh : ℚ
  tempSum : ℚ
  tempCount : ℕ
deriving DecidableEq

structure DayWeather where
  precipSum : ℚ
  precipCount : ℕ
  windSum : ℚ
  windCount : ℕ
deriving DecidableEq

structure SiteInfo where
  grossarea : ℚ
  code : String
deriving DecidableEq

structure BStats where
  totalKwh : ℚ
  count : ℕ
  grossarea : ℚ
deriving DecidableEq

structure BwAgg where
  kwh : ℚ
  tempSum : ℚ
  tempCount : ℕ
  precipSum : ℚ
  precipCount : ℕ
  windSum : ℚ
  windCount : ℕ
  date : String
  building : String
deriving DecidableEq

structure UMonthAgg where
  total : ℚ
  unit : String
deriving DecidableEq

/-- The whole streaming state of `parsePrimaryCsv`. -/
structure PrimaryState where
  rowCount : ℕ := 0
  elecRowCount : ℕ := 0
  utilitySamples : List String := []
  earliest : Option ℤ := none
  siteMap : List (String × SiteInfo) := []
  hourlyMap : List (DT × HourAgg) := []
  dailyWeatherMap : List (String × DayWeather) := []
  buildingStatsMap : List (String × BStats) := []
  buildingMonthMap : List (String × List (String × ℚ)) := []
  utilityMonthAggMap : List (String × List (String × UMonthAgg)) := []
  bwMap : List (String × BwAgg) := []
deriving DecidableEq

/-- The `if (utility) { ... }` block (source lines 289-305): sample collection
(a `Set` capped at 25) and the all-utilities monthly aggregate. -/
def stepUtility (st : PrimaryState) (row : RawRow) (utility : String) : PrimaryState :=
  { st with
    utilitySamples :=
      if st.utilitySamples.length < 25 then
        if st.utilitySamples.contains utility then st.utilitySamples
        else st.utilitySamples ++ [utility]
      else st.utilitySamples
    utilityMonthAggMap :=
      match row.readingtime with
      | none => st.utilityMonthAggMap
      | some rd =>
        let mk := monthKeyOf rd
        let months := (alGet st.utilityMonthAggMap utility).getD []
        let existing := (alGet months mk).getD
          ⟨0, strOr (strOr (jsToStr row.readingunitsdisplay) (jsToStr row.readingunits)) "kWh"⟩
        alSet st.utilityMonthAggMap utility
          (alSet months mk { existing with total := existing.total + jsToNum row.readingwindowsum }) }

/-- The electricity-row body of the streaming step (source lines 308-392). -/
def stepElecRow (st : PrimaryState) (row : RawRow) (rd : DT) : PrimaryState :=
  let ts := fullCode rd
  let readingSum := jsToNum row.readingwindowsum
  let temperature := jsToNum row.temperature_2m
  let precipitation := jsToNum row.precipitation
  let windSpeed := jsToNum row.wind_speed_10m
  let buildingName := jsToStr row.buildingname
  let grossarea := jsToNum row.grossarea
  let simscode := jsToStr row.simscode
  let hk := hourTrunc rd
  let hourAgg0 := (alGet st.hourlyMap hk).getD ⟨0, 0, 0⟩
  let hourAgg1 := { hourAgg0 with kwh := hourAgg0.kwh + readingSum }
  let hourAgg :=
    if temperature ≠ 0 then
      { hourAgg1 with tempSum := hourAgg1.tempSum + temperature,
                      tempCount := hourAgg1.tempCount + 1 }
    else hourAgg1
  let dateKey := isoDate rd
  let w0 := (alGet st.dailyWeatherMap dateKey).getD ⟨0, 0, 0, 0⟩
  let w1 :=
    if precipitation ≠ 0 then
      { w0 with precipSum := w0.precipSum + precipitation, precipCount := w0.precipCount + 1 }
    else w0
  let w :=
    if windSpeed ≠ 0 then
      { w1 with windSum := w1.windSum + windSpeed, windCount := w1.windCount + 1 }
    else w1
  let bs0 := (alGet st.buildingStatsMap buildingName).getD ⟨0, 0, grossarea⟩
  let bs1 := { bs0 with totalKwh := bs0.totalKwh + readingSum, count := bs0.count + 1 }
  let bs := if bs1.grossarea = 0 then { bs1 with grossarea := grossarea } else bs1
  let mk := monthKeyOf rd
  let months := (alGet st.buildingMonthMap buildingName).getD []
  let bwKey := buildingName ++ "||" ++ dateKey
  let bw0 := (alGet st.bwMap bwKey).getD ⟨0, 0, 0, 0, 0, 0, 0, dateKey, buildingName⟩
  let bw1 := { bw0 with kwh := bw0.kwh + readingSum }
  let bw2 :=
    if temperature ≠ 0 then
      { bw1 with tempSum := bw1.tempSum + temperature, tempCount := bw1.tempCount + 1 }
    else bw1
  let bw := { bw2 with
    precipSum := bw2.precipSum + precipitation, precipCount := bw2.precipCount + 1,
    windSum := bw2.windSum + windSpeed, windCount := bw2.windCount + 1 }
  { st with
    elecRowCount := st.elecRowCount + 1
    earliest :=
      match st.earliest with
      | none => some ts
      | some e => if ts < e then some ts else some e
    siteMap :=
      if buildingName ≠ "" ∧ (alGet st.siteMap buildingName).isNone then
        alSet st.siteMap buildingName ⟨grossarea, simscode⟩
      else st.siteMap
    hourlyMap := alSet st.hourlyMap hk hourAgg
    dailyWeatherMap := alSet st.dailyWeatherMap dateKey w
    buildingStatsMap :=
      if buildingName = "" then st.buildingStatsMap
      else alSet st.buildingStatsMap buildingName bs
    buildingMonthMap :=
      if buildingName = "" then st.buildingMonthMap
      else alSet st.buildingMonthMap buildingName
        (alSet months mk ((alGet months mk).getD 0 + readingSum))
    bwMap := if buildingName = "" then st.bwMap else alSet st.bwMap bwKey bw }

/-- One row of the streaming `step` callback (source lines 277-393). -/
def primaryStep (st : PrimaryState) (row : RawRow) : PrimaryState :=
  let utility := strTrim (jsToStr row.utility)
  let st1 := { st with rowCount := st.rowCount + 1 }
  let st2 := if utility = "" then st1 else stepUtility st1 row utility
  if utility = "" then st2
  else if !(isElectricityUtility utility) then st2
  else
    match row.readingtime with
    | none => st2
    | some rd => stepElecRow st2 row rd

/-- Source `parsePrimaryCsv`: stream all rows through `primaryStep`. -/
def parsePrimary (rows : List RawRow) : PrimaryState :=
  rows.foldl primaryStep {}

-- ── Schema validation (source lines 74-115, 486-497) ───────────────────────

/-- The five required sources. -/
inductive RequiredFile where
  | meterPremerge
  | meterBuilding
  | meterBuildingWeather
  | buildingMetadata
  | weatherDaily
deriving DecidableEq

def fileNameOf : RequiredFile → String
  | .meterPremerge => "meter_premerge_selected.csv"
  | .meterBuilding => "meter_building_merged.csv"
  | .meterBuildingWeather => "meter_building_weather_merged.csv"
  | .buildingMetadata => "building_metadata_selected.csv"
  | .weatherDaily => "weather_daily_selected.csv"

/-- Source `EXPECTED_COLUMNS`. -/
def expectedColumns : RequiredFile → List String
  | .meterPremerge =>
    ["simscode", "utility", "readingtime", "readingunits", "readingunitsdisplay",
     "readingwindowsum"]
  | .meterBuilding =>
    ["simscode", "utility", "readingtime", "readingunits", "readingunitsdisplay",
     "readingwindowsum", "buildingnumber", "buildingname", "campusname", "city",
     "latitude", "longitude"]
  | .meterBuildingWeather =>
    ["simscode", "utility", "readingtime", "readingunits", "readingunitsdisplay",
     "readingwindowsum", "buildingnumber", "buildingname", "grossarea",
     "temperature_2m"]
  | .buildingMetadata => ["buildingnumber", "buildingname"]
  | .weatherDaily => ["date", "temperature_2m"]

/-- Source `normalizeColumnName`: strip one leading BOM, then trim. -/
def normalizeColumnName (s : String) : String :=
  strTrim (if listStarts ['\uFEFF'] s.data then ⟨s.data.drop 1⟩ else s)

/-- Source `sanitizeColumns`. -/
def sanitizeColumns (cols : List String) : List String :=
  (cols.map normalizeColumnName).filter (fun c => decide (0 < c.length))

/-- The `missing` list computed by `validateColumns` (lines 490-492). -/
def missingColumns (f : RequiredFile) (actual : List String) : List String :=
  (expectedColumns f).filter (fun c => !((actual.map (fun a => strTrim (strLower a))).contains c))

/-- Source `validateColumns`: an error message naming the missing and found
columns, or `none` when valid. -/
def validateColumns (f : RequiredFile) (actual : List String) : Option String :=
  let missing := missingColumns f actual
  if 0 < missing.length then
    some (fileNameOf f ++ " is missing required columns: " ++ String.intercalate ", " missing
      ++ ". Found columns: " ++ String.intercalate ", " actual)
  else none

-- ── Output records (`csvParser.ts` types; locale labels dropped, header) ───

structure Building where
  id : String
  name : String
  sqft : ℚ
  type : String
deriving DecidableEq

structure HourlyEntry where
  timestamp : DT
  hour : ℕ
  totalKwh : ℤ
  temperature : ℚ
deriving DecidableEq

structure DailyEntry where
  date : String
  totalKwh : ℤ
  avgTemperature : ℚ
  avgPrecipitation : ℚ
  avgWindSpeed : ℚ
deriving DecidableEq

structure BuildingConsumption where
  id : String
  name : String
  sqft : ℚ
  type : String
  avgHourlyKwh : ℤ
  totalMonthlyKwh : ℤ
  intensityKwhPerSqft : ℚ
deriving DecidableEq

structure TempVsElectricity where
  temperature : ℚ
  electricity : ℤ
  date : String
deriving DecidableEq

structure SummaryMetrics where
  totalMonthlyMwh : ℤ
  buildingsMonitored : ℕ
  avgIntensity : ℚ
  peakDemandKw : ℤ
  weatherCorrelation : ℚ
deriving DecidableEq

structure BuildingMoMChange where
  name : String
  prevMonthKwh : ℤ
  currMonthKwh : ℤ
  changeKwh : ℤ
  changePct : ℚ
  prevMonthKey : String
  currMonthKey : String
deriving DecidableEq

/-- Source `BuildingPrediction`; the label's underlying rollover month/year are
kept instead of the locale string. -/
structure BuildingPrediction where
  name : String
  lastMonthKwh : ℤ
  predictedKwh : ℤ
  avgMoMChangePct : ℚ
  predictedYear : ℤ
  predictedMonth : ℤ
deriving DecidableEq

structure BuildingMonthlyKwh where
  name : String
  monthKey : String
  kwh : ℤ
deriving DecidableEq

structure UtilityMonthlyEntry where
  utility : String
  monthKey : String
  totalUsage : ℤ
  unit : String
deriving DecidableEq

structure WeatherFallback where
  temp : ℚ
  precip : ℚ
  wind : ℚ
deriving DecidableEq

structure ParsedData where
  buildings : List Building
  hourlyData : List HourlyEntry
  dailyData : List DailyEntry
  buildingConsumption : List BuildingConsumption
  tempVsElectricity : List TempVsElectricity
  summaryMetrics : SummaryMetrics
  buildingMoMChanges : List BuildingMoMChange
  buildingPredictions : List BuildingPrediction
  buildingMonthlyData : List BuildingMonthlyKwh
  utilityMonthlyData : List UtilityMonthlyEntry
  availableUtilities : List String
  buildingWeatherData : List BuildingWeatherEntry
  weatherModel : Option WeatherModelResult
deriving DecidableEq

-- ── Robust month-over-month forecaster (source lines 823-884) ──────────────

/-- `positiveValues` (lines 828-830): `Math.max(0, kwh)` kept when positive. -/
def positivesOf (sorted : List (String × ℚ)) : List ℚ :=
  (sorted.map (fun p => max 0 p.2)).filter (fun k => decide (0 < k))

/-- `validMonthFloorKwh` (lines 833-834): `max(10000, 0.2 * median(last 6 positives))`. -/
def validFloorOf (sorted : List (String × ℚ)) : ℚ :=
  max 10000 (median (takeLast 6 (positivesOf sorted)) * (2/10))

/-- `effectiveMonths` (lines 835-839): the at/above-floor months, or the
all-positive fallback when fewer than 2 remain. -/
def effectiveMonthsOf (months : List (String × ℚ)) : List (String × ℚ) :=
  let sorted := sortByKey months
  let valid := sorted.filter (fun p => decide (validFloorOf sorted ≤ max 0 p.2))
  if 2 ≤ valid.length then valid
  else sorted.filter (fun p => decide (0 < max 0 p.2))

/-- `lastMonthKwh` (lines 842-843). -/
def lastEffective (months : List (String × ℚ)) : ℚ :=
  max 0 (((effectiveMonthsOf months).getLast?.map (fun p => p.2)).getD 0)

/-- `lastMonthKey` (line 844). -/
def lastEffectiveKey (months : List (String × ℚ)) : String :=
  (((effectiveMonthsOf months).getLast?.map (fun p => p.1)).getD "")

/-- `recentKwh` (lines 845-846): last 6 effective values. -/
def recentKwhOf (months : List (String × ℚ)) : List ℚ :=
  takeLast 6 ((effectiveMonthsOf months).map (fun p => max 0 p.2))

/-- `recentMean` (line 847). -/
def recentMeanOf (months : List (String × ℚ)) : ℚ :=
  (recentKwhOf months).sum / ((recentKwhOf months).length : ℚ)

/-- `baselineFloorKwh` (lines 848-849). -/
def baselineFloorOf (months : List (String × ℚ)) : ℚ :=
  max 10000 (median (recentKwhOf months) * (2/10))

/-- `pctChanges` (lines 850-860): consecutive effective transitions whose prior
month clears the recomputed floor and whose magnitude is at most 40%. -/
def pctChangesOf (months : List (String × ℚ)) : List ℚ :=
  let eff := (effectiveMonthsOf months).map (fun p => max 0 p.2)
  (eff.zip eff.tail).filterMap (fun pc =>
    if pc.1 < baselineFloorOf months then none
    else
      let pctChange := (pc.2 - pc.1) / pc.1
      if jsAbs pctChange ≤ 4/10 then some pctChange else none)

/-- `robustMoMChange` (line 862): median of the retained changes, `0` if none. -/
def robustMoMOf (months : List (String × ℚ)) : ℚ :=
  if 0 < (pctChangesOf months).length then median (pctChangesOf months) else 0

/-- The clamped pre-rounding prediction (lines 863-867): 65/35 baseline blend,
growth applied, clamped to `[0.75, 1.25] ×` last effective month. -/
def forecastClamped (months : List (String × ℚ)) : ℚ :=
  let lastMonthKwh := lastEffective months
  let baselineKwh := lastMonthKwh * (65/100) + recentMeanOf months * (35/100)
  let rawPredictedKwh := baselineKwh * (1 + robustMoMOf months)
  let minPredictedKwh := lastMonthKwh * (75/100)
  let maxPredictedKwh := max minPredictedKwh (lastMonthKwh * (125/100))
  clamp rawPredictedKwh minPredictedKwh maxPredictedKwh

/-- The per-building loop body of the forecaster (lines 824-883): `none` models
`continue` (no forecast emitted for this building). -/
def forecastForBuilding (name : String) (months : List (String × ℚ)) :
    Option BuildingPrediction :=
  let sorted := sortByKey months
  if sorted.length < 2 then none
  else if (positivesOf sorted).length < 2 then none
  else if (effectiveMonthsOf months).length < 2 then none
  else
    let ym := parseMonthKey (lastEffectiveKey months)
    let nextMonth := if ym.2 = 12 then 1 else ym.2 + 1
    let nextYear := if ym.2 = 12 then ym.1 + 1 else ym.1
    some
      { name := name
        lastMonthKwh := jsRound (lastEffective months)
        predictedKwh := jsRound (forecastClamped months)
        avgMoMChangePct := (jsRound (robustMoMOf months * 10000) : ℚ) / 100
        predictedYear := nextYear
        predictedMonth := nextMonth }

-- ── Assembly of `parseAllCsvFiles` (source lines 506-961) ──────────────────

/-- Building-metadata lookup (lines 604-609). -/
def metaMapOf (metaRows : List RawRow) : List (String × ℚ) :=
  metaRows.foldl
    (fun m row =>
      let name := jsToStr row.buildingname
      if name = "" then m else alSet m name (jsToNum row.grossarea))
    []

/-- `buildings` (lines 627-636): site registry merged with metadata area. -/
def buildingsOf (siteMap : List (String × SiteInfo)) (metaMap : List (String × ℚ)) :
    List Building :=
  siteMap.map (fun p =>
    let grossarea :=
      if p.2.grossarea ≠ 0 then p.2.grossarea
      else match alGet metaMap p.1 with
        | some g => g
        | none => 0
    { id := strOr p.2.code p.1, name := p.1, sqft := grossarea,
      type := classifyBuildingType p.1 })

/-- One hourly output entry (lines 641-653); the presentation-only `day` offset
is dropped (header notes). -/
def hourlyEntryOf (p : DT × HourAgg) : HourlyEntry :=
  let avgTemp := if 0 < p.2.tempCount then p.2.tempSum / (p.2.tempCount : ℚ) else 0
  { timestamp := p.1, hour := p.1.h.val, totalKwh := jsRound p.2.kwh,
    temperature := round1 avgTemp }

/-- `hourlyData` (lines 640-653): bucket keys sorted by timestamp. -/
def hourlyDataOf (hm : List (DT × HourAgg)) : List HourlyEntry :=
  (sortLe (fun a b => decide (hourCode a.1 ≤ hourCode b.1)) hm).map hourlyEntryOf

/-- Daily accumulator built from the hourly series (lines 656-667). -/
structure DayAgg where
  kwh : ℚ
  tempSum : ℚ
  tempCount : ℕ
  date : DT
deriving DecidableEq

/-- One step of the daily aggregation fold (lines 657-667). -/
def dayStep (m : List (String × DayAgg)) (h : HourlyEntry) : List (String × DayAgg) :=
  let dateKey := isoDate h.timestamp
  let existing := (alGet m dateKey).getD ⟨0, 0, 0, h.timestamp⟩
  let existing := { existing with kwh := existing.kwh + (h.totalKwh : ℚ) }
  let existing :=
    if h.temperature ≠ 0 then
      { existing with tempSum := existing.tempSum + h.temperature,
                      tempCount := existing.tempCount + 1 }
    else existing
  alSet m dateKey existing

/-- `dailyMap` (lines 656-667). -/
def dailyMapOf (hd : List HourlyEntry) : List (String × DayAgg) :=
  hd.foldl dayStep []

/-- The fresh weather entry the supplement loop builds (lines 690-704). -/
def supplementWeather (dw : List (String × DayWeather)) (dateKey : String) (row : RawRow) :
    List (String × DayWeather) :=
  let precip := jsToNum row.precipitation
  let wind := jsToNum row.wind_speed_10m
  let e0 : DayWeather := ⟨0, 0, 0, 0⟩
  let e1 := if precip ≠ 0 then { e0 with precipSum := e0.precipSum + precip,
                                         precipCount := e0.precipCount + 1 } else e0
  let e2 := if wind ≠ 0 then { e1 with windSum := e1.windSum + wind,
                                       windCount := e1.windCount + 1 } else e1
  if 0 < e2.precipCount ∨ 0 < e2.windCount then alSet dw dateKey e2 else dw

/-- One step of the `weather_daily` supplement loop (lines 670-705): fill a
day's temperature when the hourly pass produced none, and fill the campus
daily weather map when it is absent or empty for that date. -/
def supplementStep (acc : List (String × DayAgg) × List (String × DayWeather))
    (row : RawRow) : List (String × DayAgg) × List (String × DayWeather) :=
  match row.date with
  | none => acc
  | some d =>
    let dateKey := isoDate d
    let dm :=
      match alGet acc.1 dateKey with
      | some existing =>
        if existing.tempCount = 0 then
          let temp := jsToNum row.temperature_2m
          if temp ≠ 0 then
            alSet acc.1 dateKey
              { existing with tempSum := existing.tempSum + temp,
                              tempCount := existing.tempCount + 1 }
          else acc.1
        else acc.1
      | none => acc.1
    let dw :=
      match alGet acc.2 dateKey with
      | some currentWeather =>
        if currentWeather.precipCount = 0 ∧ currentWeather.windCount = 0 then
          supplementWeather acc.2 dateKey row
        else acc.2
      | none => supplementWeather acc.2 dateKey row
    (dm, dw)

/-- The whole supplement pass over `weather_daily_selected.csv`. -/
def supplementDaily (dm : List (String × DayAgg)) (dw : List (String × DayWeather))
    (weatherRows : List RawRow) :
    List (String × DayAgg) × List (String × DayWeather) :=
  weatherRows.foldl supplementStep (dm, dw)

/-- One daily output entry (lines 709-728). -/
def dailyEntryOf (dw : List (String × DayWeather)) (p : String × DayAgg) : DailyEntry :=
  let weather := alGet dw p.1
  let avgPrecip :=
    match weather with
    | some w => if 0 < w.precipCount then round2 (w.precipSum / (w.precipCount : ℚ)) else 0
    | none => 0
  let avgWind :=
    match weather with
    | some w => if 0 < w.windCount then round2 (w.windSum / (w.windCount : ℚ)) else 0
    | none => 0
  { date := p.1
    totalKwh := jsRound p.2.kwh
    avgTemperature :=
      if 0 < p.2.tempCount then round1 (p.2.tempSum / (p.2.tempCount : ℚ)) else 0
    avgPrecipitation := avgPrecip
    avgWindSpeed := avgWind }

/-- `dailyData` (lines 656-728): aggregate the hourly series per ISO date,
supplement from the daily-weather source, sort by date key, and format. -/
def dailyDataOf (hd : List HourlyEntry) (dw0 : List (String × DayWeather))
    (weatherRows : List RawRow) : List DailyEntry :=
  let pr := supplementDaily (dailyMapOf hd) dw0 weatherRows
  (sortByKey pr.1).map (dailyEntryOf pr.2)

/-- The resolved gross area `stats?.grossarea || b.sqft || 0` (line 734). -/
def resolvedArea (stats : List (String × BStats)) (b : Building) : ℚ :=
  let sga :=
    match alGet stats b.name with
    | some st => st.grossarea
    | none => 0
  if sga ≠ 0 then sga else if b.sqft ≠ 0 then b.sqft else 0

/-- The resolved total `stats?.totalKwh ?? 0` (line 732). -/
def resolvedTotal (stats : List (String × BStats)) (b : Building) : ℚ :=
  match alGet stats b.name with
  | some st => st.totalKwh
  | none => 0

/-- The resolved reading count `stats?.count ?? 1` (line 733). -/
def resolvedCount (stats : List (String × BStats)) (b : Building) : ℕ :=
  match alGet stats b.name with
  | some st => st.count
  | none => 1

/-- One consumption summary (lines 730-743): intensity is `0` unless the
resolved area is positive. -/
def consumptionFor (stats : List (String × BStats)) (b : Building) : BuildingConsumption :=
  let totalKwh := resolvedTotal stats b
  let grossarea := resolvedArea stats b
  let intensity := if 0 < grossarea then round2 (totalKwh / grossarea) else 0
  { id := b.id, name := b.name, sqft := grossarea, type := b.type
    avgHourlyKwh := jsRound (totalKwh / (max (resolvedCount stats b) 1 : ℚ))
    totalMonthlyKwh := jsRound totalKwh
    intensityKwhPerSqft := intensity }

/-- `buildingConsumption` (lines 730-743). -/
def buildingConsumptionOf (buildings : List Building) (stats : List (String × BStats)) :
    List BuildingConsumption :=
  buildings.map (consumptionFor stats)

/-- `tempVsElectricity` (lines 745-747); carries the date key instead of the
locale label. -/
def tempVsElectricityOf (daily : List DailyEntry) : List TempVsElectricity :=
  (daily.filter (fun d => decide (d.avgTemperature ≠ 0))).map
    (fun d => ⟨d.avgTemperature, d.totalKwh, d.date⟩)

/-- Pearson correlation of daily temperature and electricity (lines 749-766). -/
def weatherCorrelationOf (tve : List TempVsElectricity) : ℚ :=
  if 2 < tve.length then
    let n : ℚ := (tve.length : ℚ)
    let meanT := ((tve.map (fun d => d.temperature)).sum) / n
    let meanE := ((tve.map (fun d => (d.electricity : ℚ))).sum) / n
    let num := ((tve.map (fun d => (d.temperature - meanT) * ((d.electricity : ℚ) - meanE))).sum)
    let denT := ((tve.map (fun d => (d.temperature - meanT) ^ 2)).sum)
    let denE := ((tve.map (fun d => ((d.electricity : ℚ) - meanE) ^ 2)).sum)
    let denom := ratSqrt (denT * denE)
    if 0 < denom then round2 (num / denom) else 0
  else 0

/-- `summaryMetrics` (lines 768-781). -/
def summaryMetricsOf (daily : List DailyEntry) (buildings : List Building)
    (bc : List BuildingConsumption) (hourly : List HourlyEntry)
    (tve : List TempVsElectricity) : SummaryMetrics :=
  { totalMonthlyMwh := jsRound (((daily.map (fun d => (d.totalKwh : ℚ))).sum) / 1000)
    buildingsMonitored := buildings.length
    avgIntensity :=
      if 0 < bc.length then
        round2 (((bc.map (fun b => b.intensityKwhPerSqft)).sum) / (bc.length : ℚ))
      else 0
    peakDemandKw := if 0 < hourly.length then jsListMaxZ (hourly.map (fun d => d.totalKwh)) else 0
    weatherCorrelation := weatherCorrelationOf tve }

/-- `buildingMoMChanges` (lines 783-808); month keys kept instead of labels. -/
def momChangesOf (bm : List (String × List (String × ℚ))) : List BuildingMoMChange :=
  (bm.map (fun p =>
    let sorted := sortByKey p.2
    (sorted.zip sorted.tail).map (fun pc =>
      let changeKwh := pc.2.2 - pc.1.2
      { name := p.1
        prevMonthKwh := jsRound pc.1.2
        currMonthKwh := jsRound pc.2.2
        changeKwh := jsRound changeKwh
        changePct := if 0 < pc.1.2 then (jsRound (changeKwh / pc.1.2 * 10000) : ℚ) / 100 else 0
        prevMonthKey := pc.1.1
        currMonthKey := pc.2.1 }))).flatten

/-- `buildingMonthlyData` (lines 810-821). -/
def buildingMonthlyOf (bm : List (String × List (String × ℚ))) : List BuildingMonthlyKwh :=
  (bm.map (fun p =>
    (sortByKey p.2).map (fun mk => ⟨p.1, mk.1, jsRound mk.2⟩))).flatten

/-- `buildingPredictions` (lines 823-884), sorted by last month descending. -/
def buildingPredictionsOf (bm : List (String × List (String × ℚ))) :
    List BuildingPrediction :=
  sortLe (fun a b => decide (b.lastMonthKwh ≤ a.lastMonthKwh))
    (bm.filterMap (fun p => forecastForBuilding p.1 p.2))

/-- `utilityMonthlyData` (lines 886-902). -/
def utilityMonthlyOf (um : List (String × List (String × UMonthAgg))) :
    List UtilityMonthlyEntry :=
  (um.map (fun p =>
    (sortByKey p.2).map (fun mk =>
      ⟨p.1, mk.1, jsRound mk.2.total, mk.2.unit⟩))).flatten

/-- `availableUtilities` (lines 887-903). -/
def availableUtilitiesOf (um : List (String × List (String × UMonthAgg))) : List String :=
  sortLe strLeB (um.map (fun p => p.1))

/-- `weatherDailyByDate` (lines 906-917). -/
def weatherDailyByDateOf (weatherRows : List RawRow) : List (String × WeatherFallback) :=
  weatherRows.foldl
    (fun m row =>
      match row.date with
      | none => m
      | some d =>
        alSet m (isoDate d)
          ⟨jsToNum row.temperature_2m, jsToNum row.precipitation, jsToNum row.wind_speed_10m⟩)
    []

/-- `buildingWeatherData` (lines 919-939): per building-day panel rows with the
daily-weather fallback. -/
def buildingWeatherDataOf (bwMap : List (String × BwAgg))
    (wdbd : List (String × WeatherFallback)) : List BuildingWeatherEntry :=
  (bwMap.map (fun p => p.2)).filterMap (fun val =>
    let fallbackWeather := alGet wdbd val.date
    if val.tempCount = 0 ∧ fallbackWeather = none then none
    else some
      { buildingName := val.building
        temperature :=
          if 0 < val.tempCount then round1 (val.tempSum / (val.tempCount : ℚ))
          else round1 ((fallbackWeather.map (fun w => w.temp)).getD 0)
        precipitation :=
          if 0 < val.precipCount then round2 (val.precipSum / (val.precipCount : ℚ))
          else round2 ((fallbackWeather.map (fun w => w.precip)).getD 0)
        windSpeed :=
          if 0 < val.windCount then round2 (val.windSum / (val.windCount : ℚ))
          else round2 ((fallbackWeather.map (fun w => w.wind)).getD 0)
        electricity := jsRound val.kwh
        date := val.date })

/-- The zero-electricity-rows error message (lines 589-595). -/
def noElecMessage (primarySource : String) (samples : List String) : String :=
  "No electricity rows found in " ++ primarySource ++
    ". Expected column \"utility\" to contain \"ELECTRICITY\". Found unique utility values: " ++
    String.intercalate ", " samples

/-- The pure core of `parseAllCsvFiles` (lines 506-961), after file I/O and
header validation: consume the already-streamed primary rows plus the two
small files and assemble `ParsedData`, or fail when no electricity rows were
found.  `primarySource` names the file actually streamed (the weather-merged
primary or its fallback). -/
def parseAllCore (primarySource : String) (primaryRows metaRows weatherRows : List RawRow) :
    Except String ParsedData :=
  let primary := parsePrimary primaryRows
  if primary.elecRowCount = 0 then
    .error (noElecMessage primarySource primary.utilitySamples)
  else
    let buildings := buildingsOf primary.siteMap (metaMapOf metaRows)
    let hourlyData := hourlyDataOf primary.hourlyMap
    let dailyData := dailyDataOf hourlyData primary.dailyWeatherMap weatherRows
    let buildingConsumption := buildingConsumptionOf buildings primary.buildingStatsMap
    let tve := tempVsElectricityOf dailyData
    let bwd := buildingWeatherDataOf primary.bwMap (weatherDailyByDateOf weatherRows)
    .ok
      { buildings := buildings
        hourlyData := hourlyData
        dailyData := dailyData
        buildingConsumption := buildingConsumption
        tempVsElectricity := tve
        summaryMetrics := summaryMetricsOf dailyData buildings buildingConsumption hourlyData tve
        buildingMoMChanges := momChangesOf primary.buildingMonthMap
        buildingPredictions := buildingPredictionsOf primary.buildingMonthMap
        buildingMonthlyData := buildingMonthlyOf primary.buildingMonthMap
        utilityMonthlyData := utilityMonthlyOf primary.utilityMonthAggMap
        availableUtilities := availableUtilitiesOf primary.utilityMonthAggMap
        buildingWeatherData := bwd
        weatherModel := buildWeatherModel bwd }

-- ── Observation projections used by the theorems below ─────────────────────

/-- The temperature running pair `(tempSum, tempCount)` of an hourly bucket
(`(0, 0)` when the bucket does not exist yet). -/
def tempPairAt (m : List (DT × HourAgg)) (k : DT) : ℚ × ℕ :=
  match alGet m k with
  | some b => (b.tempSum, b.tempCount)
  | none => (0, 0)

/-- The precipitation running pair of a campus daily-weather bucket. -/
def precipPairAt (m : List (String × DayWeather)) (k : String) : ℚ × ℕ :=
  match alGet m k with
  | some b => (b.precipSum, b.precipCount)
  | none => (0, 0)

/-- The wind running pair of a campus daily-weather bucket. -/
def windPairAt (m : List (String × DayWeather)) (k : String) : ℚ × ℕ :=
  match alGet m k with
  | some b => (b.windSum, b.windCount)
  | none => (0, 0)

/-- The temperature running pair of a daily bucket built from the hourly series. -/
def dayTempPairAt (m : List (String × DayAgg)) (k : String) : ℚ × ℕ :=
  match alGet m k with
  | some b => (b.tempSum, b.tempCount)
  | none => (0, 0)

/-- The accumulated energy of a daily bucket (`0` when absent). -/
def kwhAt (m : List (String × DayAgg)) (k : String) : ℚ :=
  match alGet m k with
  | some b => b.kwh
  | none => 0

/-- The keys of an association list are pairwise distinct (a `Map` invariant). -/
def NodupKeys (m : List (κ × β)) : Prop := (m.map (fun p => p.1)).Nodup

-- ── Concrete inputs used by witnesses and counterexamples ──────────────────

/-- Ten building-days with distinct totals and constant weather: the outlier
trim would keep only 8 of 10 rows, so it is skipped. -/
def exOutlierSkip : List BuildingWeatherEntry :=
  (List.range 10).map (fun i =>
    { buildingName := "Mack Hall"
      temperature := 50
      precipitation := 0
      windSpeed := 5
      electricity := 100000 + 1000 * (i : ℚ)
      date := "2024-01-" ++ (if i + 1 < 10 then "0" else "") ++ toString (i + 1) })

/-- Nine equal building-days plus one slightly larger one: the fitted mean
must be rounded, which makes the residual sum exceed the total sum. -/
def exNegR2 : List BuildingWeatherEntry :=
  (List.range 10).map (fun i =>
    { buildingName := "Mack Hall"
      temperature := 50
      precipitation := 0
      windSpeed := 5
      electricity := if i = 9 then 100005 else 100000
      date := "2024-01-" ++ (if i + 1 < 10 then "0" else "") ++ toString (i + 1) })

/-- Ten building-days whose model fit is exact (`r2 = 0` with zero variance). -/
def exR2One : List BuildingWeatherEntry :=
  (List.range 10).map (fun i =>
    { buildingName := "Hale Hall"
      temperature := 60
      precipitation := 0
      windSpeed := 4
      electricity := 100000 + 1000 * (i : ℚ)
      date := "2024-02-" ++ (if i + 1 < 10 then "0" else "") ++ toString (i + 1) })

/-- A two-month series with a small, in-band growth step. -/
def exForecastWitness : List (String × ℚ) :=
  [("2024-01", 100000), ("2024-02", 102000)]

/-- Five negligible months then one large one: the clamp binds at
`0.75 × 40003 = 30002.25`, whose rounding drops below the bound. -/
def exForecastRound : List (String × ℚ) :=
  [("2024-01", 10), ("2024-02", 10), ("2024-03", 10), ("2024-04", 10), ("2024-05", 10),
   ("2024-06", 40003)]

/-- The spec's floor-filter scenario series (the 5000 month is an artifact). -/
def exFloorSeries : List (String × ℚ) :=
  [("2024-01", 100000), ("2024-02", 102000), ("2024-03", 99000), ("2024-04", 5000),
   ("2024-05", 101000)]

/-- The primary source's expected columns with only `grossarea` absent. -/
def exPrimaryColsNoGrossarea : List String :=
  ["simscode", "utility", "readingtime", "readingunits", "readingunitsdisplay",
   "readingwindowsum", "buildingnumber", "buildingname", "temperature_2m"]

/-- A single non-electricity row. -/
def exGasRow : RawRow := { utility := .str "GAS" }

def exDtH3 : DT := ⟨2024, 0, 5, 3, 0⟩

def exDtH4 : DT := ⟨2024, 0, 5, 4, 0⟩

/-- Two hourly entries on the same date. -/
def exHourlyPair : List HourlyEntry :=
  [{ timestamp := exDtH3, hour := 3, totalKwh := 100, temperature := 5 },
   { timestamp := exDtH4, hour := 4, totalKwh := 50, temperature := 0 }]

def exBldNeg : Building := { id := "N1", name := "Noyes Hall", sqft := 0, type := "Academic" }

/-- Stats resolving to a negative recorded area. -/
def exStatsNeg : List (String × BStats) := [("Noyes Hall", ⟨5000, 2, -10⟩)]

def exBldPos : Building := { id := "P1", name := "Page Hall", sqft := 0, type := "Academic" }

/-- Stats resolving to a positive area. -/
def exStatsPos : List (String × BStats) := [("Page Hall", ⟨5000, 2, 100⟩)]

/-- An electricity row whose weather readings are all exactly zero. -/
def exZeroWeatherRow : RawRow :=
  { utility := .str "ELECTRICITY"
    readingtime := some exDtH3
    readingwindowsum := .num 250
    temperature_2m := .num 0
    precipitation := .num 0
    wind_speed_10m := .num 0
    buildingname := .str "Orton Hall"
    grossarea := .num 1000
    simscode := .str "ORT" }

/-- A 4×4 matrix whose second elimination column has no pivot of magnitude
at least `1e-10`. -/
def exSingularM : List (List ℚ) :=
  [[1, 0, 0, 0], [0, 0, 0, 0], [0, 0, 0, 0], [0, 0, 0, 1]]

-- ── Helper lemmas ──────────────────────────────────────────────────────────

theorem jsRound_intCast (n : ℤ) : jsRound (n : ℚ) = n := by
  simp [jsRound]
  norm_num

theorem jsRound_le_int (q : ℚ) (n : ℤ) (h : q ≤ (n : ℚ)) : jsRound q ≤ n := by
  have h2 : q + 1/2 ≤ (n : ℚ) + 1/2 := by linarith
  calc jsRound q = ⌊q + 1/2⌋ := rfl
    _ ≤ ⌊(n : ℚ) + 1/2⌋ := Int.floor_le_floor h2
    _ = n := by norm_num

theorem jsRound_nonneg (q : ℚ) (h : 0 ≤ q) : 0 ≤ jsRound q := by
  have : (0 : ℚ) ≤ q + 1/2 := by linarith
  exact Int.le_floor.2 (by exact_mod_cast this)

theorem jsRound_cast_le (q : ℚ) : (jsRound q : ℚ) ≤ q + 1/2 := Int.floor_le _

theorem le_jsRound_cast (q : ℚ) : q - 1/2 ≤ (jsRound q : ℚ) := by
  have := Int.sub_one_lt_floor (q + 1/2)
  have h : q + 1/2 - 1 < (jsRound q : ℚ) := this
  linarith

theorem round2_nonneg (q : ℚ) (h : 0 ≤ q) : 0 ≤ round2 q := by
  have h1 : 0 ≤ jsRound (q * 100) := jsRound_nonneg _ (by positivity)
  have h2 : (0 : ℚ) ≤ (jsRound (q * 100) : ℚ) := by exact_mod_cast h1
  simpa [round2] using by positivity

theorem clamp_le_hi (v lo hi : ℚ) : clamp v lo hi ≤ hi := min_le_right _ _

theorem lo_le_clamp (v lo hi : ℚ) (h : lo ≤ hi) : lo ≤ clamp v lo hi :=
  le_min (le_max_right _ _) h

theorem alGet_alSet_self [DecidableEq κ] (m : List (κ × β)) (k : κ) (v : β) :
    alGet (alSet m k v) k = some v := by
  induction m with
  | nil => simp [alSet, alGet, List.find?]
  | cons p t ih =>
    by_cases h : p.1 = k
    · simp [alSet, h, alGet, List.find?]
    · obtain ⟨k0, v0⟩ := p
      simp only at h
      simp only [alSet, if_neg h, alGet, List.find?]
      rw [alGet] at ih
      simpa [h] using ih

theorem alGet_alSet_ne [DecidableEq κ] (m : List (κ × β)) (k k2 : κ) (v : β)
    (h : k2 ≠ k) : alGet (alSet m k v) k2 = alGet m k2 := by
  induction m with
  | nil =>
    have h1 : (decide (k = k2)) = false := by
      simp
      intro hh
      exact absurd hh.symm h
    simp [alSet, alGet, List.find?, h1]
  | cons p t ih =>
    obtain ⟨k0, v0⟩ := p
    by_cases hk : k0 = k
    · subst hk
      simp only [alSet, if_pos rfl, alGet, List.find?]
      have h1 : (decide (k0 = k2)) = false := by
        simp
        intro hh
        exact absurd hh.symm h
      simp [h1]
    · simp only [alSet, if_neg hk, alGet, List.find?]
      by_cases h2 : k0 = k2
      · simp [h2]
      · have h1 : (decide (k0 = k2)) = false := by simp [h2]
        simp only [h1]
        rw [alGet] at ih
        simpa using ih

theorem mem_insLe (le : α → α → Bool) (x a : α) (l : List α) :
    a ∈ insLe le x l ↔ a = x ∨ a ∈ l := by
  induction l with
  | nil => simp [insLe]
  | cons y ys ih =>
    by_cases h : le x y
    · simp [insLe, h]
    · simp only [insLe, if_neg h, List.mem_cons, ih]
      tauto

theorem mem_sortLe (le : α → α → Bool) (a : α) (l : List α) :
    a ∈ sortLe le l ↔ a ∈ l := by
  induction l with
  | nil => simp [sortLe]
  | cons x xs ih => simp [sortLe, mem_insLe, ih]

theorem sum_sq_nonneg (l : List ℚ) (f : ℚ → ℚ) :
    0 ≤ (l.map (fun x => (f x) ^ 2)).sum := by
  apply List.sum_nonneg
  intro x hx
  obtain ⟨y, _, rfl⟩ := List.mem_map.1 hx
  positivity

-- ── C1 ─────────────────────────────────────────────────────────────────────

/-- C1 (amended): in `buildWeatherModel`, only the usable-entry stage and the
daily-aggregation stage abort the fit with a null model when fewer than 10
rows remain; the coverage, completeness and outlier-trim filters are instead
*skipped* (leaving the row set unchanged) whenever applying them would leave
fewer than 10 rows, and the fit proceeds. -/
theorem claim_C1 :
    (∀ entries : List BuildingWeatherEntry,
      (weatherUsableEntries entries).length < 10 → buildWeatherModel entries = none) ∧
    (∀ entries : List BuildingWeatherEntry,
      (weatherDailyRows entries).length < 10 → buildWeatherModel entries = none) ∧
    (∀ rows : List WRow, (coverageFiltered rows).length < 10 → coverageStage rows = rows) ∧
    (∀ rows : List WRow,
      (completenessFiltered rows).length < 10 → completenessStage rows = rows) ∧
    (∀ rows : List WRow, (outlierFiltered rows).length < 10 → outlierStage rows = rows) := by
  refine ⟨?_, ?_, ?_, ?_, ?_⟩
  · intro entries h
    unfold buildWeatherModel
    rw [if_pos h]
  · intro entries h
    unfold buildWeatherModel
    by_cases h1 : (weatherUsableEntries entries).length < 10
    · rw [if_pos h1]
    · rw [if_neg h1, if_pos h]
  · intro rows h
    unfold coverageStage
    rw [if_neg (by omega)]
  · intro rows h
    unfold completenessStage
    rw [if_neg (by omega)]
  · intro rows h
    unfold outlierStage
    rw [if_neg (by omega)]

/-- C1 witness: the five abort/skip hypotheses discharged on concrete inputs. -/
theorem claim_C1_witness :
    buildWeatherModel [] = none ∧ buildWeatherModel [] = none ∧
    coverageStage [] = [] ∧ completenessStage [] = [] ∧ outlierStage [] = [] :=
  ⟨claim_C1.1 [] (by decide), claim_C1.2.1 [] (by decide), claim_C1.2.2.1 [] (by decide),
   claim_C1.2.2.2.1 [] (by decide), claim_C1.2.2.2.2 [] (by decide)⟩

/-- C1 counterexample to the claim as stated: on `exOutlierSkip` the
outlier-trim stage yields only 8 (fewer than 10) remaining rows, yet
`buildWeatherModel` does not abort — it returns a non-null model. -/
theorem claim_C1_counterexample :
    (outlierFiltered (completenessStage (coverageStage
      (weatherDailyRows exOutlierSkip)))).length < 10 ∧
    (buildWeatherModel exOutlierSkip).isSome = true := by
  exact ⟨by decide, by decide⟩

-- ── C5 ─────────────────────────────────────────────────────────────────────

/-- C5: `buildWeatherModel` returns a null model exactly on data shortage or
when `invert4x4` reports failure on the ridge normal-equations matrix — in
particular an inversion failure always yields a null model, never an
exception or garbage coefficients (the embedding is total).  The second
conjunct shows `invert4x4` reporting failure on a concrete matrix whose
second elimination column has no pivot of magnitude at least `1e-10`. -/
theorem claim_C5 :
    (∀ entries : List BuildingWeatherEntry,
      buildWeatherModel entries = none ↔
        ((weatherUsableEntries entries).length < 10 ∨
         (weatherDailyRows entries).length < 10 ∨
         invert4x4 (weatherNormalMatrix entries) = none)) ∧
    invert4x4 exSingularM = none := by
  constructor
  · intro entries
    unfold buildWeatherModel
    by_cases h1 : (weatherUsableEntries entries).length < 10
    · simp [h1]
    · by_cases h2 : (weatherDailyRows entries).length < 10
      · simp [h1, h2]
      · cases hinv : invert4x4 (weatherNormalMatrix entries) with
        | none => simp [h1, h2, hinv]
        | some inv => simp [h1, h2, hinv]
  · decide

-- ── C4 ─────────────────────────────────────────────────────────────────────

/-- C4: the validity floor is `max(10000, 0.2 × median(last 6 positive
values))`, and whenever at least 2 months sit at/above that floor the
effective series is exactly the at/above-floor subseries (so every
below-floor month is excluded); on the scenario series
`[100000, 102000, 99000, 5000, 101000]` the `5000` month is excluded and the
retained month-over-month changes are those of the four surviving months. -/
theorem claim_C4 :
    (∀ months : List (String × ℚ),
      2 ≤ ((sortByKey months).filter (fun p =>
        decide (max 10000 (median (takeLast 6 (positivesOf (sortByKey months))) * (2/10))
          ≤ max 0 p.2))).length →
      effectiveMonthsOf months = (sortByKey months).filter (fun p =>
        decide (max 10000 (median (takeLast 6 (positivesOf (sortByKey months))) * (2/10))
          ≤ max 0 p.2)) ∧
      ∀ p ∈ effectiveMonthsOf months,
        max 10000 (median (takeLast 6 (positivesOf (sortByKey months))) * (2/10))
          ≤ max 0 p.2) ∧
    effectiveMonthsOf exFloorSeries =
      [("2024-01", 100000), ("2024-02", 102000), ("2024-03", 99000), ("2024-05", 101000)] ∧
    pctChangesOf exFloorSeries = [1/50, -1/34, 2/99] := by
  refine ⟨?_, by decide, by decide⟩
  intro months h
  have heq : effectiveMonthsOf months = (sortByKey months).filter (fun p =>
      decide (max 10000 (median (takeLast 6 (positivesOf (sortByKey months))) * (2/10))
        ≤ max 0 p.2)) := by
    unfold effectiveMonthsOf validFloorOf
    rw [if_pos h]
  refine ⟨heq, ?_⟩
  intro p hp
  rw [heq] at hp
  have := (List.mem_filter.1 hp).2
  exact of_decide_eq_true this

/-- C4 witness: the floor-filter equation discharged on the scenario series. -/
theorem claim_C4_witness :
    effectiveMonthsOf exFloorSeries = (sortByKey exFloorSeries).filter (fun p =>
      decide (max 10000 (median (takeLast 6 (positivesOf (sortByKey exFloorSeries))) * (2/10))
        ≤ max 0 p.2)) :=
  (claim_C4.1 exFloorSeries (by decide)).1

-- ── C3 ─────────────────────────────────────────────────────────────────────

/-- C3 (amended): for every produced forecast, the *pre-rounding* clamped
prediction lies exactly in `[0.75 ×, 1.25 ×]` of the last effective month's
value; the emitted `predictedKwh` (and `lastMonthKwh`) are those values
rounded to the nearest integer, so each reported bound can be off by less
than one unit of rounding. -/
theorem claim_C3 (name : String) (months : List (String × ℚ)) (p : BuildingPrediction)
    (h : forecastForBuilding name months = some p) :
    (3/4 : ℚ) * lastEffective months ≤ forecastClamped months ∧
    forecastClamped months ≤ (5/4 : ℚ) * lastEffective months ∧
    p.predictedKwh = jsRound (forecastClamped months) ∧
    p.lastMonthKwh = jsRound (lastEffective months) := by
  have hL : (0 : ℚ) ≤ lastEffective months := le_max_left 0 _
  have hrfl : forecastClamped months = clamp
      ((lastEffective months * (65/100) + recentMeanOf months * (35/100))
        * (1 + robustMoMOf months))
      (lastEffective months * (75/100))
      (max (lastEffective months * (75/100)) (lastEffective months * (125/100))) := rfl
  have hmax : max (lastEffective months * (75/100)) (lastEffective months * (125/100))
      = lastEffective months * (125/100) := max_eq_right (by nlinarith)
  refine ⟨?_, ?_, ?_, ?_⟩
  · calc (3/4 : ℚ) * lastEffective months = lastEffective months * (75/100) := by ring
      _ ≤ forecastClamped months := by
          rw [hrfl]
          exact lo_le_clamp _ _ _ (le_max_left _ _)
  · calc forecastClamped months
        ≤ max (lastEffective months * (75/100)) (lastEffective months * (125/100)) := by
          rw [hrfl]
          exact clamp_le_hi _ _ _
      _ = (5/4 : ℚ) * lastEffective months := by rw [hmax]; ring
  · simp only [forecastForBuilding] at h
    split_ifs at h <;> (injection h with h; subst h; rfl)
  · simp only [forecastForBuilding] at h
    split_ifs at h <;> (injection h with h; subst h; rfl)

/-- C3 witness: the amended bounds on a produced two-month forecast. -/
theorem claim_C3_witness :
    (3/4 : ℚ) * lastEffective exForecastWitness ≤ forecastClamped exForecastWitness ∧
    forecastClamped exForecastWitness ≤ (5/4 : ℚ) * lastEffective exForecastWitness ∧
    (103683 : ℤ) = jsRound (forecastClamped exForecastWitness) ∧
    (102000 : ℤ) = jsRound (lastEffective exForecastWitness) :=
  claim_C3 "B" exForecastWitness ⟨"B", 102000, 103683, 2, 2024, 3⟩ (by decide)

/-- C3 counterexample to the claim as stated: on `exForecastRound` a forecast
is produced whose last effective month value is `40003` and whose emitted
prediction is `30002`, strictly below `0.75 × 40003 = 30002.25`. -/
theorem claim_C3_counterexample :
    forecastForBuilding "B" exForecastRound =
      some ⟨"B", 40003, 30002, 0, 2024, 7⟩ ∧
    ¬ ((3/4 : ℚ) * 40003 ≤ (30002 : ℚ)) :=
  ⟨by decide, by norm_num⟩

-- ── C9 ─────────────────────────────────────────────────────────────────────

/-- C9: a building's intensity is `0` whenever its resolved gross area is
non-positive, equals `round2 (total / area)` when the area is positive, and
is never negative when the resolved total is non-negative; the reported
`sqft` is the resolved area, and the per-building map is what the pipeline
applies to every building. -/
theorem claim_C9 :
    (∀ (stats : List (String × BStats)) (b : Building),
      (consumptionFor stats b).sqft = resolvedArea stats b ∧
      (resolvedArea stats b ≤ 0 → (consumptionFor stats b).intensityKwhPerSqft = 0) ∧
      (0 < resolvedArea stats b →
        (consumptionFor stats b).intensityKwhPerSqft =
          round2 (resolvedTotal stats b / resolvedArea stats b)) ∧
      (0 ≤ resolvedTotal stats b → 0 ≤ (consumptionFor stats b).intensityKwhPerSqft)) ∧
    (∀ (buildings : List Building) (stats : List (String × BStats)),
      buildingConsumptionOf buildings stats = buildings.map (consumptionFor stats)) := by
  refine ⟨?_, fun _ _ => rfl⟩
  intro stats b
  have hrfl : (consumptionFor stats b).intensityKwhPerSqft =
      (if 0 < resolvedArea stats b
        then round2 (resolvedTotal stats b / resolvedArea stats b) else 0) := rfl
  refine ⟨rfl, ?_, ?_, ?_⟩
  · intro h
    rw [hrfl, if_neg (not_lt.2 h)]
  · intro h
    rw [hrfl, if_pos h]
  · intro h
    rw [hrfl]
    by_cases ha : 0 < resolvedArea stats b
    · rw [if_pos ha]
      exact round2_nonneg _ (div_nonneg h (le_of_lt ha))
    · rw [if_neg ha]

/-- C9 witness: a negative resolved area yields intensity `0`; a positive
resolved area yields the rounded quotient, which is non-negative. -/
theorem claim_C9_witness :
    (consumptionFor exStatsNeg exBldNeg).intensityKwhPerSqft = 0 ∧
    (consumptionFor exStatsPos exBldPos).intensityKwhPerSqft =
      round2 (resolvedTotal exStatsPos exBldPos / resolvedArea exStatsPos exBldPos) ∧
    0 ≤ (consumptionFor exStatsPos exBldPos).intensityKwhPerSqft :=
  ⟨(claim_C9.1 exStatsNeg exBldNeg).2.1 (by decide),
   (claim_C9.1 exStatsPos exBldPos).2.2.1 (by decide),
   (claim_C9.1 exStatsPos exBldPos).2.2.2 (by decide)⟩

-- ── C2 ─────────────────────────────────────────────────────────────────────

/-- The reported R² never exceeds 1: the residual sum of squares is
non-negative, so the rounded `1 - ssRes/ssTot` is at most 1. -/
theorem weatherR2_le_one (rows : List WRow) (inv : List (List ℚ)) :
    weatherR2 rows inv ≤ 1 := by
  unfold weatherR2
  by_cases h : 0 < weatherSsTot rows
  · rw [if_pos h]
    have hres : 0 ≤ weatherSsRes rows inv := by
      unfold weatherSsRes
      apply List.sum_nonneg
      intro x hx
      obtain ⟨pp, _, rfl⟩ := List.mem_map.1 hx
      positivity
    have hdiv : 0 ≤ weatherSsRes rows inv / weatherSsTot rows :=
      div_nonneg hres (le_of_lt h)
    have harg : (1 - weatherSsRes rows inv / weatherSsTot rows) * 10000 ≤ (10000 : ℚ) := by
      nlinarith
    have hjr : jsRound ((1 - weatherSsRes rows inv / weatherSsTot rows) * 10000)
        ≤ (10000 : ℤ) := jsRound_le_int _ 10000 (by exact_mod_cast harg)
    rw [div_le_one (by norm_num)]
    exact_mod_cast hjr
  · rw [if_neg h]
    norm_num

/-- The `r2` field of a fitted record is the reported R². -/
theorem weatherModelFrom_r2_le_one (rows : List WRow) (inv : List (List ℚ)) :
    (weatherModelFrom rows inv).r2 ≤ 1 := by
  have h : (weatherModelFrom rows inv).r2 = weatherR2 rows inv := rfl
  rw [h]
  exact weatherR2_le_one rows inv

/-- C2 (amended): whenever `buildWeatherModel` returns a model, its `r2` is at
most 1 — but, contrary to the claim, it is *not* always non-negative (see the
counterexample), because the residuals are computed against clamped,
integer-rounded predictions and can exceed the total sum of squares. -/
theorem claim_C2 (entries : List BuildingWeatherEntry) (r : ℚ)
    (h : (buildWeatherModel entries).map (fun m => m.r2) = some r) : r ≤ 1 := by
  unfold buildWeatherModel at h
  split_ifs at h with h1 h2
  · simp at h
  · simp at h
  · cases hinv : invert4x4 (weatherNormalMatrix entries) with
    | none => rw [hinv] at h; simp at h
    | some inv =>
      rw [hinv] at h
      have h2 : (weatherModelFrom (weatherFitRows entries) inv).r2 = r := by
        simpa using h
      exact h2 ▸ weatherModelFrom_r2_le_one (weatherFitRows entries) inv

/-- C2 witness: on `exR2One` the model is produced with `r2 = 0 ≤ 1`. -/
theorem claim_C2_witness :
    (buildWeatherModel exR2One).map (fun m => m.r2) = some 0 ∧ (0 : ℚ) ≤ 1 :=
  ⟨by decide, claim_C2 exR2One 0 (by decide)⟩

/-- C2 counterexample to `r² ∈ [0, 1]` as stated: on `exNegR2` the model is
non-null and its reported `r2` is `-0.1111 < 0`. -/
theorem claim_C2_counterexample :
    (buildWeatherModel exNegR2).isSome = true ∧
    (buildWeatherModel exNegR2).map (fun m => m.r2) = some (-1111/10000) ∧
    ((-1111 : ℚ)/10000) < 0 :=
  ⟨by decide, by decide, by norm_num⟩

-- ── C6 ─────────────────────────────────────────────────────────────────────

/-- No expected column name is empty. -/
theorem expected_ne_empty (f : RequiredFile) (c : String) (hc : c ∈ expectedColumns f) :
    c ≠ "" := by
  intro he
  subst he
  cases f <;> revert hc <;> decide

/-- C6: after the parser's sanitization (BOM strip, trim, drop empty names),
the validator's missing list contains exactly the expected columns that no
actual column matches case-insensitively (after trimming); in particular the
primary source with only `grossarea` absent yields exactly `["grossarea"]`,
and the validator reports an error rather than accepting. -/
theorem claim_C6 :
    (∀ (f : RequiredFile) (actual : List String) (c : String),
      c ∈ missingColumns f (sanitizeColumns actual) ↔
        (c ∈ expectedColumns f ∧
          ∀ a ∈ actual, strTrim (strLower (normalizeColumnName a)) ≠ c)) ∧
    missingColumns .meterBuildingWeather (sanitizeColumns exPrimaryColsNoGrossarea) =
      ["grossarea"] ∧
    validateColumns .meterBuildingWeather (sanitizeColumns exPrimaryColsNoGrossarea) ≠
      none := by
  refine ⟨?_, by decide, by decide⟩
  intro f actual c
  constructor
  · intro hmem
    have h1 := List.mem_filter.1 hmem
    refine ⟨h1.1, ?_⟩
    intro a ha hEq
    have h2 : ¬ (((sanitizeColumns actual).map (fun x => strTrim (strLower x))).contains c
        = true) := by
      simpa using h1.2
    apply h2
    have hc0 : normalizeColumnName a ≠ "" := by
      intro h0
      apply expected_ne_empty f c h1.1
      rw [← hEq, h0]
      rfl
    have hsan : normalizeColumnName a ∈ sanitizeColumns actual := by
      apply List.mem_filter.2
      refine ⟨List.mem_map.2 ⟨a, ha, rfl⟩, ?_⟩
      simp only [decide_eq_true_eq]
      rcases hsmk : normalizeColumnName a with ⟨nd⟩
      rw [hsmk] at hc0
      have hnd : nd ≠ [] := by
        intro h0
        apply hc0
        rw [h0]
      show 0 < nd.length
      exact List.length_pos.2 hnd
    have : c ∈ (sanitizeColumns actual).map (fun x => strTrim (strLower x)) :=
      List.mem_map.2 ⟨normalizeColumnName a, hsan, hEq⟩
    simpa using this
  · rintro ⟨hc, hall⟩
    apply List.mem_filter.2
    refine ⟨hc, ?_⟩
    simp only [Bool.not_eq_true']
    rw [Bool.eq_false_iff]
    intro hcon
    have hm : c ∈ (sanitizeColumns actual).map (fun x => strTrim (strLower x)) := by
      simpa using hcon
    obtain ⟨b, hb, hbeq⟩ := List.mem_map.1 hm
    obtain ⟨hb1, _⟩ := List.mem_filter.1 hb
    obtain ⟨a, ha, rfl⟩ := List.mem_map.1 hb1
    exact hall a ha hbeq

-- ── C7 ─────────────────────────────────────────────────────────────────────

/-- The utility-sample collector keeps at most 25 distinct labels. -/
theorem stepUtility_samples_inv (st : PrimaryState) (row : RawRow) (u : String)
    (hlen : st.utilitySamples.length ≤ 25) (hnd : st.utilitySamples.Nodup) :
    (stepUtility st row u).utilitySamples.length ≤ 25 ∧
    (stepUtility st row u).utilitySamples.Nodup := by
  have hs : (stepUtility st row u).utilitySamples =
      (if st.utilitySamples.length < 25 then
        (if st.utilitySamples.contains u then st.utilitySamples
         else st.utilitySamples ++ [u])
       else st.utilitySamples) := rfl
  rw [hs]
  split_ifs with h1 h2
  · exact ⟨hlen, hnd⟩
  · have hu : u ∉ st.utilitySamples := by simpa using h2
    constructor
    · simp only [List.length_append, List.length_singleton]
      omega
    · simp [List.nodup_append, hnd, hu]
  · exact ⟨hlen, hnd⟩

/-- The electricity-row body never touches the sample list. -/
theorem stepElecRow_samples (st : PrimaryState) (row : RawRow) (rd : DT) :
    (stepElecRow st row rd).utilitySamples = st.utilitySamples := rfl

/-- One streaming step preserves the sample-cap invariant. -/
theorem primaryStep_samples_inv (st : PrimaryState) (row : RawRow)
    (hlen : st.utilitySamples.length ≤ 25) (hnd : st.utilitySamples.Nodup) :
    (primaryStep st row).utilitySamples.length ≤ 25 ∧
    (primaryStep st row).utilitySamples.Nodup := by
  unfold primaryStep
  by_cases hu : strTrim (jsToStr row.utility) = ""
  · simp only [hu, if_pos rfl, if_true]
    exact ⟨hlen, hnd⟩
  · have hstep := stepUtility_samples_inv { st with rowCount := st.rowCount + 1 } row
      (strTrim (jsToStr row.utility)) hlen hnd
    simp only [if_neg hu]
    by_cases he : isElectricityUtility (strTrim (jsToStr row.utility))
    · simp only [he, Bool.not_true, Bool.false_eq_true, if_false]
      cases hr : row.readingtime with
      | none => exact hstep
      | some rd =>
        rw [stepElecRow_samples]
        exact hstep
    · have hb : isElectricityUtility (strTrim (jsToStr row.utility)) = false := by
        simpa using he
      simp only [hb, Bool.not_false, if_true]
      exact hstep

/-- The whole streaming pass preserves the sample-cap invariant. -/
theorem parsePrimary_samples_inv (rows : List RawRow) (st : PrimaryState)
    (hlen : st.utilitySamples.length ≤ 25) (hnd : st.utilitySamples.Nodup) :
    (rows.foldl primaryStep st).utilitySamples.length ≤ 25 ∧
    (rows.foldl primaryStep st).utilitySamples.Nodup := by
  induction rows generalizing st with
  | nil => exact ⟨hlen, hnd⟩
  | cons row rest ih =>
    have h := primaryStep_samples_inv st row hlen hnd
    exact ih (primaryStep st row) h.1 h.2

/-- C7: when a full pass over the primary source finds zero electricity rows,
the pipeline fails with the error message listing the collected utility
label samples; and the sample list always holds at most 25 distinct labels. -/
theorem claim_C7 :
    (∀ (primarySource : String) (primaryRows metaRows weatherRows : List RawRow),
      (parsePrimary primaryRows).elecRowCount = 0 →
      parseAllCore primarySource primaryRows metaRows weatherRows =
        .error (noElecMessage primarySource (parsePrimary primaryRows).utilitySamples)) ∧
    (∀ rows : List RawRow,
      (parsePrimary rows).utilitySamples.length ≤ 25 ∧
      (parsePrimary rows).utilitySamples.Nodup) := by
  constructor
  · intro primarySource primaryRows metaRows weatherRows h
    unfold parseAllCore
    rw [if_pos h]
  · intro rows
    exact parsePrimary_samples_inv rows {} (by simp) (by simp)

/-- C7 witness: a single gas row produces zero electricity rows, the error
value with its sample list, and a sample list within the cap. -/
theorem claim_C7_witness :
    parseAllCore "meter_building_weather_merged.csv" [exGasRow] [] [] =
      .error (noElecMessage "meter_building_weather_merged.csv"
        (parsePrimary [exGasRow]).utilitySamples) ∧
    (parsePrimary [exGasRow]).utilitySamples.length ≤ 25 :=
  ⟨claim_C7.1 "meter_building_weather_merged.csv" [exGasRow] [] [] (by decide),
   (claim_C7.2 [exGasRow]).1⟩

-- ── C10 ────────────────────────────────────────────────────────────────────

theorem stepUtility_hourlyMap (st : PrimaryState) (row : RawRow) (u : String) :
    (stepUtility st row u).hourlyMap = st.hourlyMap := rfl

theorem stepUtility_dailyWeatherMap (st : PrimaryState) (row : RawRow) (u : String) :
    (stepUtility st row u).dailyWeatherMap = st.dailyWeatherMap := rfl

theorem tempPairAt_alSet (m : List (DT × HourAgg)) (k0 : DT) (v : HourAgg) (k : DT)
    (hv : (v.tempSum, v.tempCount) = tempPairAt m k0) :
    tempPairAt (alSet m k0 v) k = tempPairAt m k := by
  by_cases hk : k = k0
  · subst hk
    unfold tempPairAt
    rw [alGet_alSet_self]
    unfold tempPairAt at hv
    exact hv
  · unfold tempPairAt
    rw [alGet_alSet_ne _ _ _ _ hk]

theorem precipPairAt_alSet (m : List (String × DayWeather)) (k0 : String)
    (v : DayWeather) (k : String) (hv : (v.precipSum, v.precipCount) = precipPairAt m k0) :
    precipPairAt (alSet m k0 v) k = precipPairAt m k := by
  by_cases hk : k = k0
  · subst hk
    unfold precipPairAt
    rw [alGet_alSet_self]
    unfold precipPairAt at hv
    exact hv
  · unfold precipPairAt
    rw [alGet_alSet_ne _ _ _ _ hk]

theorem windPairAt_alSet (m : List (String × DayWeather)) (k0 : String)
    (v : DayWeather) (k : String) (hv : (v.windSum, v.windCount) = windPairAt m k0) :
    windPairAt (alSet m k0 v) k = windPairAt m k := by
  by_cases hk : k = k0
  · subst hk
    unfold windPairAt
    rw [alGet_alSet_self]
    unfold windPairAt at hv
    exact hv
  · unfold windPairAt
    rw [alGet_alSet_ne _ _ _ _ hk]

theorem dayTempPairAt_alSet (m : List (String × DayAgg)) (k0 : String)
    (v : DayAgg) (k : String) (hv : (v.tempSum, v.tempCount) = dayTempPairAt m k0) :
    dayTempPairAt (alSet m k0 v) k = dayTempPairAt m k := by
  by_cases hk : k = k0
  · subst hk
    unfold dayTempPairAt
    rw [alGet_alSet_self]
    unfold dayTempPairAt at hv
    exact hv
  · unfold dayTempPairAt
    rw [alGet_alSet_ne _ _ _ _ hk]

/-- A zero temperature reading leaves every hourly bucket's running
temperature pair untouched (the row's energy is still accumulated). -/
theorem tempPair_stepElecRow (st : PrimaryState) (row : RawRow) (rd : DT) (k : DT)
    (htemp : jsToNum row.temperature_2m = 0) :
    tempPairAt (stepElecRow st row rd).hourlyMap k = tempPairAt st.hourlyMap k := by
  have hmap : (stepElecRow st row rd).hourlyMap =
      alSet st.hourlyMap (hourTrunc rd)
        (let hourAgg0 := (alGet st.hourlyMap (hourTrunc rd)).getD ⟨0, 0, 0⟩
         let hourAgg1 := { hourAgg0 with kwh := hourAgg0.kwh + jsToNum row.readingwindowsum }
         if jsToNum row.temperature_2m ≠ 0 then
           { hourAgg1 with tempSum := hourAgg1.tempSum + jsToNum row.temperature_2m,
                           tempCount := hourAgg1.tempCount + 1 }
         else hourAgg1) := rfl
  rw [hmap]
  rw [htemp]
  rw [if_neg (show ¬ ((0 : ℚ) ≠ 0) by norm_num)]
  apply tempPairAt_alSet
  unfold tempPairAt
  cases halg : alGet st.hourlyMap (hourTrunc rd) with
  | none => simp [halg]
  | some b => simp [halg]

/-- A zero precipitation reading leaves every campus daily bucket's running
precipitation pair untouched. -/
theorem precipPair_stepElecRow (st : PrimaryState) (row : RawRow) (rd : DT) (k : String)
    (hp : jsToNum row.precipitation = 0) :
    precipPairAt (stepElecRow st row rd).dailyWeatherMap k =
      precipPairAt st.dailyWeatherMap k := by
  have hmap : (stepElecRow st row rd).dailyWeatherMap =
      alSet st.dailyWeatherMap (isoDate rd)
        (let w0 := (alGet st.dailyWeatherMap (isoDate rd)).getD ⟨0, 0, 0, 0⟩
         let w1 :=
           if jsToNum row.precipitation ≠ 0 then
             { w0 with precipSum := w0.precipSum + jsToNum row.precipitation,
                       precipCount := w0.precipCount + 1 }
           else w0
         if jsToNum row.wind_speed_10m ≠ 0 then
           { w1 with windSum := w1.windSum + jsToNum row.wind_speed_10m,
                     windCount := w1.windCount + 1 }
         else w1) := rfl
  rw [hmap, hp]
  apply precipPairAt_alSet
  unfold precipPairAt
  cases halg : alGet st.dailyWeatherMap (isoDate rd) with
  | none =>
    by_cases hwx : jsToNum row.wind_speed_10m = 0
    · simp [halg, hwx]
    · simp [halg, hwx]
  | some b =>
    by_cases hwx : jsToNum row.wind_speed_10m = 0
    · simp [halg, hwx]
    · simp [halg, hwx]

/-- A zero wind reading leaves every campus daily bucket's running wind pair
untouched. -/
theorem windPair_stepElecRow (st : PrimaryState) (row : RawRow) (rd : DT) (k : String)
    (hw : jsToNum row.wind_speed_10m = 0) :
    windPairAt (stepElecRow st row rd).dailyWeatherMap k =
      windPairAt st.dailyWeatherMap k := by
  have hmap : (stepElecRow st row rd).dailyWeatherMap =
      alSet st.dailyWeatherMap (isoDate rd)
        (let w0 := (alGet st.dailyWeatherMap (isoDate rd)).getD ⟨0, 0, 0, 0⟩
         let w1 :=
           if jsToNum row.precipitation ≠ 0 then
             { w0 with precipSum := w0.precipSum + jsToNum row.precipitation,
                       precipCount := w0.precipCount + 1 }
           else w0
         if jsToNum row.wind_speed_10m ≠ 0 then
           { w1 with windSum := w1.windSum + jsToNum row.wind_speed_10m,
                     windCount := w1.windCount + 1 }
         else w1) := rfl
  rw [hmap, hw]
  apply windPairAt_alSet
  unfold windPairAt
  cases halg : alGet st.dailyWeatherMap (isoDate rd) with
  | none =>
    by_cases hpx : jsToNum row.precipitation = 0
    · simp [halg, hpx]
    · simp [halg, hpx]
  | some b =>
    by_cases hpx : jsToNum row.precipitation = 0
    · simp [halg, hpx]
    · simp [halg, hpx]

/-- Lift a per-map preservation fact over `stepElecRow` to `primaryStep`. -/
theorem primaryStep_hourlyMap_cases (st : PrimaryState) (row : RawRow) :
    (primaryStep st row).hourlyMap = st.hourlyMap ∨
    ∃ rd st2, row.readingtime = some rd ∧ st2.hourlyMap = st.hourlyMap ∧
      (primaryStep st row).hourlyMap = (stepElecRow st2 row rd).hourlyMap := by
  unfold primaryStep
  by_cases hu : strTrim (jsToStr row.utility) = ""
  · left
    simp only [hu, if_pos rfl, if_true]
  · simp only [if_neg hu]
    by_cases he : isElectricityUtility (strTrim (jsToStr row.utility))
    · simp only [he, Bool.not_true, Bool.false_eq_true, if_false]
      cases hr : row.readingtime with
      | none => left; rw [stepUtility_hourlyMap]
      | some rd =>
        right
        exact ⟨rd, stepUtility { st with rowCount := st.rowCount + 1 } row
          (strTrim (jsToStr row.utility)), rfl, rfl, rfl⟩
    · have hb : isElectricityUtility (strTrim (jsToStr row.utility)) = false := by
        simpa using he
      simp only [hb, Bool.not_false, if_true]
      left
      rw [stepUtility_hourlyMap]

theorem primaryStep_dailyWeatherMap_cases (st : PrimaryState) (row : RawRow) :
    (primaryStep st row).dailyWeatherMap = st.dailyWeatherMap ∨
    ∃ rd st2, row.readingtime = some rd ∧ st2.dailyWeatherMap = st.dailyWeatherMap ∧
      (primaryStep st row).dailyWeatherMap = (stepElecRow st2 row rd).dailyWeatherMap := by
  unfold primaryStep
  by_cases hu : strTrim (jsToStr row.utility) = ""
  · left
    simp only [hu, if_pos rfl, if_true]
  · simp only [if_neg hu]
    by_cases he : isElectricityUtility (strTrim (jsToStr row.utility))
    · simp only [he, Bool.not_true, Bool.false_eq_true, if_false]
      cases hr : row.readingtime with
      | none => left; rw [stepUtility_dailyWeatherMap]
      | some rd =>
        right
        exact ⟨rd, stepUtility { st with rowCount := st.rowCount + 1 } row
          (strTrim (jsToStr row.utility)), rfl, rfl, rfl⟩
    · have hb : isElectricityUtility (strTrim (jsToStr row.utility)) = false := by
        simpa using he
      simp only [hb, Bool.not_false, if_true]
      left
      rw [stepUtility_dailyWeatherMap]

/-- C10: a weather reading of exactly 0 is excluded from the running
sum/count pairs (temperature for hourly buckets and for the day buckets built
from the hourly series; precipitation and wind for the campus daily weather
map), and a bucket with a zero count reports an average of 0 in the hourly
and daily output entries. -/
theorem claim_C10 :
    (∀ (st : PrimaryState) (row : RawRow) (k : DT),
      jsToNum row.temperature_2m = 0 →
      tempPairAt (primaryStep st row).hourlyMap k = tempPairAt st.hourlyMap k) ∧
    (∀ (st : PrimaryState) (row : RawRow) (k : String),
      jsToNum row.precipitation = 0 →
      precipPairAt (primaryStep st row).dailyWeatherMap k =
        precipPairAt st.dailyWeatherMap k) ∧
    (∀ (st : PrimaryState) (row : RawRow) (k : String),
      jsToNum row.wind_speed_10m = 0 →
      windPairAt (primaryStep st row).dailyWeatherMap k =
        windPairAt st.dailyWeatherMap k) ∧
    (∀ (m : List (String × DayAgg)) (h : HourlyEntry) (k : String),
      h.temperature = 0 → dayTempPairAt (dayStep m h) k = dayTempPairAt m k) ∧
    (∀ p : DT × HourAgg, p.2.tempCount = 0 → (hourlyEntryOf p).temperature = 0) ∧
    (∀ (dw : List (String × DayWeather)) (p : String × DayAgg),
      p.2.tempCount = 0 → (dailyEntryOf dw p).avgTemperature = 0) ∧
    (∀ (dw : List (String × DayWeather)) (p : String × DayAgg) (w : DayWeather),
      alGet dw p.1 = some w → w.precipCount = 0 →
      (dailyEntryOf dw p).avgPrecipitation = 0) ∧
    (∀ (dw : List (String × DayWeather)) (p : String × DayAgg) (w : DayWeather),
      alGet dw p.1 = some w → w.windCount = 0 →
      (dailyEntryOf dw p).avgWindSpeed = 0) := by
  refine ⟨?_, ?_, ?_, ?_, ?_, ?_, ?_, ?_⟩
  · intro st row k htemp
    rcases primaryStep_hourlyMap_cases st row with h | ⟨rd, st2, _, hmap, heq⟩
    · rw [h]
    · rw [heq, tempPair_stepElecRow st2 row rd k htemp, hmap]
  · intro st row k hp
    rcases primaryStep_dailyWeatherMap_cases st row with h | ⟨rd, st2, _, hmap, heq⟩
    · rw [h]
    · rw [heq, precipPair_stepElecRow st2 row rd k hp, hmap]
  · intro st row k hw
    rcases primaryStep_dailyWeatherMap_cases st row with h | ⟨rd, st2, _, hmap, heq⟩
    · rw [h]
    · rw [heq, windPair_stepElecRow st2 row rd k hw, hmap]
  · intro m h k htemp
    have hmap : dayStep m h =
        alSet m (isoDate h.timestamp)
          (let e0 := (alGet m (isoDate h.timestamp)).getD ⟨0, 0, 0, h.timestamp⟩
           let e1 := { e0 with kwh := e0.kwh + (h.totalKwh : ℚ) }
           if h.temperature ≠ 0 then
             { e1 with tempSum := e1.tempSum + h.temperature,
                       tempCount := e1.tempCount + 1 }
           else e1) := rfl
    rw [hmap, htemp, if_neg (show ¬ ((0 : ℚ) ≠ 0) by norm_num)]
    apply dayTempPairAt_alSet
    unfold dayTempPairAt
    cases halg : alGet m (isoDate h.timestamp) with
    | none => simp [halg]
    | some b => simp [halg]
  · intro p hc
    have : (hourlyEntryOf p).temperature =
        round1 (if 0 < p.2.tempCount then p.2.tempSum / (p.2.tempCount : ℚ) else 0) := rfl
    rw [this, if_neg (by omega)]
    decide
  · intro dw p hc
    have : (dailyEntryOf dw p).avgTemperature =
        (if 0 < p.2.tempCount then round1 (p.2.tempSum / (p.2.tempCount : ℚ)) else 0) := rfl
    rw [this, if_neg (by omega)]
  · intro dw p w hget hc
    have : (dailyEntryOf dw p).avgPrecipitation =
        (match alGet dw p.1 with
         | some w2 =>
           if 0 < w2.precipCount then round2 (w2.precipSum / (w2.precipCount : ℚ)) else 0
         | none => 0) := rfl
    rw [this, hget]
    simp only []
    rw [if_neg (by omega)]
  · intro dw p w hget hc
    have : (dailyEntryOf dw p).avgWindSpeed =
        (match alGet dw p.1 with
         | some w2 =>
           if 0 < w2.windCount then round2 (w2.windSum / (w2.windCount : ℚ)) else 0
         | none => 0) := rfl
    rw [this, hget]
    simp only []
    rw [if_neg (by omega)]

/-- C10 witness: on a concrete all-zero-weather electricity row the hourly
temperature pair and the daily precipitation/wind pairs are unchanged, and
zero-count buckets report zero averages. -/
theorem claim_C10_witness :
    tempPairAt (primaryStep {} exZeroWeatherRow).hourlyMap exDtH3 =
      tempPairAt ({} : PrimaryState).hourlyMap exDtH3 ∧
    precipPairAt (primaryStep {} exZeroWeatherRow).dailyWeatherMap "2024-01-05" =
      precipPairAt ({} : PrimaryState).dailyWeatherMap "2024-01-05" ∧
    windPairAt (primaryStep {} exZeroWeatherRow).dailyWeatherMap "2024-01-05" =
      windPairAt ({} : PrimaryState).dailyWeatherMap "2024-01-05" ∧
    dayTempPairAt (dayStep [] ⟨exDtH4, 4, 50, 0⟩) "2024-01-06" =
      dayTempPairAt [] "2024-01-06" ∧
    (hourlyEntryOf (exDtH3, ⟨120, 0, 0⟩)).temperature = 0 ∧
    (dailyEntryOf [] ("2024-01-05", ⟨120, 0, 0, exDtH3⟩)).avgTemperature = 0 ∧
    (dailyEntryOf [("2024-01-05", ⟨0, 0, 3, 1⟩)]
      ("2024-01-05", ⟨120, 5, 1, exDtH3⟩)).avgPrecipitation = 0 ∧
    (dailyEntryOf [("2024-01-05", ⟨3, 1, 0, 0⟩)]
      ("2024-01-05", ⟨120, 5, 1, exDtH3⟩)).avgWindSpeed = 0 :=
  ⟨claim_C10.1 {} exZeroWeatherRow exDtH3 (by decide),
   claim_C10.2.1 {} exZeroWeatherRow "2024-01-05" (by decide),
   claim_C10.2.2.1 {} exZeroWeatherRow "2024-01-05" (by decide),
   claim_C10.2.2.2.1 [] ⟨exDtH4, 4, 50, 0⟩ "2024-01-06" (by decide),
   claim_C10.2.2.2.2.1 (exDtH3, ⟨120, 0, 0⟩) (by decide),
   claim_C10.2.2.2.2.2.1 [] ("2024-01-05", ⟨120, 0, 0, exDtH3⟩) (by decide),
   claim_C10.2.2.2.2.2.2.1 [("2024-01-05", ⟨0, 0, 3, 1⟩)]
     ("2024-01-05", ⟨120, 5, 1, exDtH3⟩) ⟨0, 0, 3, 1⟩ (by decide) (by decide),
   claim_C10.2.2.2.2.2.2.2 [("2024-01-05", ⟨3, 1, 0, 0⟩)]
     ("2024-01-05", ⟨120, 5, 1, exDtH3⟩) ⟨3, 1, 0, 0⟩ (by decide) (by decide)⟩

-- ── C8 ─────────────────────────────────────────────────────────────────────

theorem mem_keys_alSet [DecidableEq κ] (m : List (κ × β)) (k k2 : κ) (v : β)
    (h : k2 ∈ (alSet m k v).map Prod.fst) : k2 ∈ m.map Prod.fst ∨ k2 = k := by
  induction m with
  | nil =>
    rw [show alSet ([] : List (κ × β)) k v = [(k, v)] from rfl] at h
    simp only [List.map_cons, List.map_nil, List.mem_singleton] at h
    exact Or.inr h
  | cons p t ih =>
    obtain ⟨k0, v0⟩ := p
    by_cases hk : k0 = k
    · subst hk
      rw [show alSet ((k0, v0) :: t) k0 v = (k0, v) :: t from by simp [alSet]] at h
      simp only [List.map_cons, List.mem_cons] at h
      rcases h with h | h
      · exact Or.inr h
      · left
        rw [List.map_cons]
        exact List.mem_cons.2 (Or.inr h)
    · rw [show alSet ((k0, v0) :: t) k v = (k0, v0) :: alSet t k v from by
        simp [alSet, hk]] at h
      simp only [List.map_cons, List.mem_cons] at h
      rcases h with h | h
      · left
        rw [List.map_cons]
        exact List.mem_cons.2 (Or.inl h)
      · rcases ih h with h2 | h2
        · left
          rw [List.map_cons]
          exact List.mem_cons.2 (Or.inr h2)
        · exact Or.inr h2

theorem nodupKeys_alSet [DecidableEq κ] (m : List (κ × β)) (k : κ) (v : β)
    (h : NodupKeys m) : NodupKeys (alSet m k v) := by
  induction m with
  | nil =>
    rw [show alSet ([] : List (κ × β)) k v = [(k, v)] from rfl]
    unfold NodupKeys
    simp
  | cons p t ih =>
    obtain ⟨k0, v0⟩ := p
    have hpair : (k0 ∉ t.map Prod.fst) ∧ NodupKeys t := by
      unfold NodupKeys at h
      simp only [List.map_cons, List.nodup_cons] at h
      exact h
    by_cases hk : k0 = k
    · subst hk
      rw [show alSet ((k0, v0) :: t) k0 v = (k0, v) :: t from by simp [alSet]]
      unfold NodupKeys
      simp only [List.map_cons, List.nodup_cons]
      exact hpair
    · rw [show alSet ((k0, v0) :: t) k v = (k0, v0) :: alSet t k v from by
        simp [alSet, hk]]
      unfold NodupKeys
      simp only [List.map_cons, List.nodup_cons]
      constructor
      · intro hmem
        rcases mem_keys_alSet t k k0 v hmem with h2 | h2
        · exact hpair.1 h2
        · exact hk h2
      · exact ih hpair.2

theorem alGet_of_mem [DecidableEq κ] (m : List (κ × β)) (k : κ) (v : β)
    (hnd : NodupKeys m) (hmem : (k, v) ∈ m) : alGet m k = some v := by
  induction m with
  | nil => simp at hmem
  | cons p t ih =>
    obtain ⟨k0, v0⟩ := p
    rcases List.mem_cons.1 hmem with h | h
    · cases h
      simp [alGet, List.find?]
    · have hk : k0 ≠ k := by
        intro he
        subst he
        have hkeys : k0 ∈ t.map Prod.fst := List.mem_map.2 ⟨(k0, v), h, rfl⟩
        unfold NodupKeys at hnd
        simp only [List.map_cons, List.nodup_cons] at hnd
        exact hnd.1 hkeys
      have ht : NodupKeys t := by
        unfold NodupKeys at hnd ⊢
        simp only [List.map_cons, List.nodup_cons] at hnd
        exact hnd.2
      have h1 : (decide (k0 = k)) = false := by simp [hk]
      simp only [alGet, List.find?, h1]
      rw [alGet] at ih
      exact ih ht h

/-- One daily-aggregation step adds exactly the entry's energy to its date
bucket and nothing to any other bucket. -/
theorem dayStep_kwhAt (m : List (String × DayAgg)) (h : HourlyEntry) (k : String) :
    kwhAt (dayStep m h) k =
      kwhAt m k + (if isoDate h.timestamp = k then (h.totalKwh : ℚ) else 0) := by
  have hmap : dayStep m h =
      alSet m (isoDate h.timestamp)
        (let e0 := (alGet m (isoDate h.timestamp)).getD ⟨0, 0, 0, h.timestamp⟩
         let e1 := { e0 with kwh := e0.kwh + (h.totalKwh : ℚ) }
         if h.temperature ≠ 0 then
           { e1 with tempSum := e1.tempSum + h.temperature, tempCount := e1.tempCount + 1 }
         else e1) := rfl
  rw [hmap]
  by_cases hk : k = isoDate h.timestamp
  · rw [hk, if_pos rfl]
    unfold kwhAt
    rw [alGet_alSet_self]
    cases halg : alGet m (isoDate h.timestamp) with
    | none =>
      by_cases ht : h.temperature = 0
      · simp [halg, ht]
      · simp [halg, ht]
    | some b =>
      by_cases ht : h.temperature = 0
      · simp [halg, ht]
      · simp [halg, ht]
  · unfold kwhAt
    rw [alGet_alSet_ne _ _ _ _ hk, if_neg (fun he => hk he.symm)]
    simp

theorem dayStep_nodupKeys (m : List (String × DayAgg)) (h : HourlyEntry)
    (hnd : NodupKeys m) : NodupKeys (dayStep m h) :=
  nodupKeys_alSet _ _ _ hnd

/-- The daily fold accumulates, per date key, the sum of the hourly totals
with that ISO date. -/
theorem foldl_dayStep_kwhAt (hd : List HourlyEntry) (m : List (String × DayAgg))
    (k : String) :
    kwhAt (hd.foldl dayStep m) k =
      kwhAt m k +
        ((hd.filter (fun x => decide (isoDate x.timestamp = k))).map
          (fun x => (x.totalKwh : ℚ))).sum := by
  induction hd generalizing m with
  | nil => simp
  | cons x rest ih =>
    simp only [List.foldl_cons]
    rw [ih (dayStep m x), dayStep_kwhAt]
    by_cases hx : isoDate x.timestamp = k
    · rw [if_pos hx]
      simp only [List.filter_cons, hx]
      simp
      ring
    · rw [if_neg hx]
      have hxb : (decide (isoDate x.timestamp = k)) = false := by simp [hx]
      simp only [List.filter_cons, hxb]
      simp

theorem kwhAt_alSet (m : List (String × DayAgg)) (k0 : String) (v : DayAgg)
    (k : String) (hv : v.kwh = kwhAt m k0) :
    kwhAt (alSet m k0 v) k = kwhAt m k := by
  by_cases hk : k = k0
  · subst hk
    unfold kwhAt
    rw [alGet_alSet_self]
    unfold kwhAt at hv
    exact hv
  · unfold kwhAt
    rw [alGet_alSet_ne _ _ _ _ hk]

/-- The supplement pass never changes a day bucket's accumulated energy. -/
theorem supplementStep_kwhAt (acc : List (String × DayAgg) × List (String × DayWeather))
    (row : RawRow) (k : String) :
    kwhAt (supplementStep acc row).1 k = kwhAt acc.1 k := by
  unfold supplementStep
  cases hr : row.date with
  | none => rfl
  | some d =>
    simp only []
    cases halg : alGet acc.1 (isoDate d) with
    | none => simp [halg]
    | some existing =>
      by_cases hc : existing.tempCount = 0
      · by_cases htz : jsToNum row.temperature_2m = 0
        · simp [halg, hc, htz]
        · have hne : jsToNum row.temperature_2m ≠ 0 := htz
          simp only [halg, if_pos hc, ne_eq, hne, not_false_eq_true, if_true]
          apply kwhAt_alSet
          unfold kwhAt
          rw [halg]
      · simp [halg, hc]

theorem supplementStep_nodupKeys (acc : List (String × DayAgg) × List (String × DayWeather))
    (row : RawRow) (hnd : NodupKeys acc.1) : NodupKeys (supplementStep acc row).1 := by
  unfold supplementStep
  cases hr : row.date with
  | none => exact hnd
  | some d =>
    simp only []
    cases halg : alGet acc.1 (isoDate d) with
    | none => simpa [halg] using hnd
    | some existing =>
      by_cases hc : existing.tempCount = 0
      · by_cases htz : jsToNum row.temperature_2m = 0
        · simpa [halg, hc, htz] using hnd
        · simp only [halg, if_pos hc, htz, ne_eq, not_false_eq_true, if_true]
          exact nodupKeys_alSet _ _ _ hnd
      · simpa [halg, hc] using hnd

theorem supplementDaily_kwhAt (weatherRows : List RawRow)
    (dm : List (String × DayAgg)) (dw : List (String × DayWeather)) (k : String) :
    kwhAt (supplementDaily dm dw weatherRows).1 k = kwhAt dm k := by
  unfold supplementDaily
  induction weatherRows generalizing dm dw with
  | nil => rfl
  | cons row rest ih =>
    simp only [List.foldl_cons]
    have hstep := supplementStep_kwhAt (dm, dw) row k
    calc kwhAt (rest.foldl supplementStep (supplementStep (dm, dw) row)).1 k
        = kwhAt (supplementStep (dm, dw) row).1 k := by
          have := ih (supplementStep (dm, dw) row).1 (supplementStep (dm, dw) row).2
          simpa using this
      _ = kwhAt dm k := hstep

theorem supplementDaily_nodupKeys (weatherRows : List RawRow)
    (dm : List (String × DayAgg)) (dw : List (String × DayWeather))
    (hnd : NodupKeys dm) : NodupKeys (supplementDaily dm dw weatherRows).1 := by
  unfold supplementDaily
  induction weatherRows generalizing dm dw with
  | nil => exact hnd
  | cons row rest ih =>
    simp only [List.foldl_cons]
    have hstep := supplementStep_nodupKeys (dm, dw) row hnd
    have := ih (supplementStep (dm, dw) row).1 (supplementStep (dm, dw) row).2 hstep
    simpa using this

theorem dailyMapOf_nodupKeys (hd : List HourlyEntry) : NodupKeys (dailyMapOf hd) := by
  unfold dailyMapOf
  suffices hgen : ∀ m : List (String × DayAgg), NodupKeys m → NodupKeys (hd.foldl dayStep m) by
    exact hgen [] (by simp [NodupKeys])
  induction hd with
  | nil => intro m hm; exact hm
  | cons x rest ih =>
    intro m hm
    exact ih (dayStep m x) (dayStep_nodupKeys m x hm)

theorem sum_intCast_map (l : List HourlyEntry) :
    (l.map (fun x => (x.totalKwh : ℚ))).sum = (((l.map (fun x => x.totalKwh)).sum : ℤ) : ℚ) := by
  induction l with
  | nil => simp
  | cons x rest ih => simp [ih]

/-- C8: every daily entry's total is exactly the sum of the totals of the
hourly entries whose timestamp falls on that date. -/
theorem claim_C8 (hd : List HourlyEntry) (dw0 : List (String × DayWeather))
    (weatherRows : List RawRow) (e : DailyEntry)
    (h : e ∈ dailyDataOf hd dw0 weatherRows) :
    e.totalKwh = ((hd.filter (fun x => decide (isoDate x.timestamp = e.date))).map
      (fun x => x.totalKwh)).sum := by
  unfold dailyDataOf at h
  obtain ⟨p, hp, he⟩ := List.mem_map.1 h
  have hpmem : p ∈ (supplementDaily (dailyMapOf hd) dw0 weatherRows).1 := by
    have := hp
    unfold sortByKey at this
    exact (mem_sortLe _ _ _).1 this
  have hnd : NodupKeys (supplementDaily (dailyMapOf hd) dw0 weatherRows).1 :=
    supplementDaily_nodupKeys weatherRows (dailyMapOf hd) dw0 (dailyMapOf_nodupKeys hd)
  have hget : alGet (supplementDaily (dailyMapOf hd) dw0 weatherRows).1 p.1 = some p.2 := by
    have := alGet_of_mem _ p.1 p.2 hnd (by simpa using hpmem)
    exact this
  have hkwh : p.2.kwh = kwhAt (supplementDaily (dailyMapOf hd) dw0 weatherRows).1 p.1 := by
    unfold kwhAt
    rw [hget]
  have hkwh2 : p.2.kwh = kwhAt (dailyMapOf hd) p.1 := by
    rw [hkwh, supplementDaily_kwhAt]
  have hfold : kwhAt (dailyMapOf hd) p.1 =
      ((hd.filter (fun x => decide (isoDate x.timestamp = p.1))).map
        (fun x => (x.totalKwh : ℚ))).sum := by
    unfold dailyMapOf
    have := foldl_dayStep_kwhAt hd [] p.1
    simpa [kwhAt, alGet] using this
  have hdate : e.date = p.1 := by
    rw [← he]
    exact rfl
  have htot : e.totalKwh = jsRound p.2.kwh := by
    rw [← he]
    exact rfl
  rw [htot, hdate, hkwh2, hfold, sum_intCast_map, jsRound_intCast]

/-- C8 witness: two hourly entries on 2024-01-05 produce a daily total of 150,
the sum of their totals. -/
theorem claim_C8_witness :
    (⟨"2024-01-05", 150, 5, 0, 0⟩ : DailyEntry) ∈ dailyDataOf exHourlyPair [] [] ∧
    (150 : ℤ) = ((exHourlyPair.filter (fun x =>
      decide (isoDate x.timestamp = "2024-01-05"))).map (fun x => x.totalKwh)).sum :=
  ⟨by decide, claim_C8 exHourlyPair [] [] ⟨"2024-01-05", 150, 5, 0, 0⟩ (by decide)⟩

end DataIO
